import Mathlib

/-!
# Verification of the chirp8 CHIP-8 interpreter core

Shallow embedding of `src/chirp8.rs`, `src/quirks.rs` and `src/stack.rs`
(crate `chirp8`).  Machine integers are modelled as `Nat` with explicit
`% 2^w` (or `&&& mask`) where the Rust code wraps; Rust panics (array
index out of bounds, `unwrap` on stack errors, u8/u16 overflow in checked
positions) are modelled by `Option`, `none` meaning a panic.  Byte arrays
are modelled as functions `Nat → Nat`; the display buffer as
`Nat → Nat → Nat` (row, column).
-/

set_option maxHeartbeats 2000000
set_option maxRecDepth 2048

namespace Chirp8Emb

/-- `STACK_SIZE` in chirp8.rs. -/
def STACK_SIZE : Nat := 16
/-- `RAM_SIZE` (standard, no `mem_extend` feature): 12-bit addresses. -/
def RAM_SIZE : Nat := 0x1000
/-- `RAM_MASK = RAM_SIZE - 1`. -/
def RAM_MASK : Nat := 0xFFF
/-- `PROGRAM_START`. -/
def PROGRAM_START : Nat := 0x200
/-- `PROGRAM_SIZE = RAM_SIZE - PROGRAM_START` (= 3584). -/
def PROGRAM_SIZE : Nat := RAM_SIZE - PROGRAM_START
/-- `REGISTERS_COUNT`. -/
def REGISTERS_COUNT : Nat := 16
/-- `FLAG_REGISTER_INDEX`. -/
def FLAG_REGISTER_INDEX : Nat := 0xF
/-- `KEYS_COUNT`. -/
def KEYS_COUNT : Nat := 16
/-- `FONT_SPRITES_ADDRESS`. -/
def FONT_SPRITES_ADDRESS : Nat := 0
/-- `FONT_SPRITES_STEP`. -/
def FONT_SPRITES_STEP : Nat := 5
/-- `FONT_SPRITES_COUNT`. -/
def FONT_SPRITES_COUNT : Nat := 16
/-- `FONT_SPRITES_HIGH_STEP`. -/
def FONT_SPRITES_HIGH_STEP : Nat := 10
/-- `RPL_REGISTERS_COUNT`. -/
def RPL_REGISTERS_COUNT : Nat := 16
/-- `PROGRAM_COUNTER_STEP`. -/
def PROGRAM_COUNTER_STEP : Nat := 2
/-- `DISPLAY_WIDTH`. -/
def DISPLAY_WIDTH : Nat := 128
/-- `DISPLAY_HEIGHT`. -/
def DISPLAY_HEIGHT : Nat := 64
/-- `PIXEL_OFF`. -/
def PIXEL_OFF : Nat := 0x00
/-- `PIXEL_ON`. -/
def PIXEL_ON : Nat := 0xFF
/-- `DISPLAY_PLANES`. -/
def DISPLAY_PLANES : Nat := 2
/-- `PLANES_MASK = (1 << DISPLAY_PLANES) - 1`. -/
def PLANES_MASK : Nat := (1 <<< DISPLAY_PLANES) - 1
/-- `AUDIO_BUFFER_SIZE`. -/
def AUDIO_BUFFER_SIZE : Nat := 16
/-- Modulus for `u8` wrapping arithmetic. -/
def U8_MOD : Nat := 256
/-- Modulus for `u16` wrapping arithmetic. -/
def U16_MOD : Nat := 65536
/-- Modulus for `usize` wrapping arithmetic (64-bit hosts). -/
def USIZE_MOD : Nat := 18446744073709551616

/-- `repeat_bits`: repeats the `count` least-significant bits of `value` on
following bits; `u8::MAX / ((1 << count) - 1)` then `wrapping_mul`. -/
def repeat_bits (value : Nat) (count : Nat) : Nat :=
  let step := 255 / ((1 <<< count) - 1)
  let mask := (1 <<< count) - 1
  ((value &&& mask) * step) % U8_MOD

/-- `Chirp8Mode` (the four dialects, in declaration order used by `PartialOrd`). -/
inductive Chirp8Mode where
  | cosmacChip8
  | superChip1_1
  | superChipModern
  | xoChip
deriving DecidableEq

/-- Rank of a mode, used for the derived `PartialOrd` comparisons (`>=`). -/
def Chirp8Mode.rank : Chirp8Mode → Nat
  | .cosmacChip8 => 0
  | .superChip1_1 => 1
  | .superChipModern => 2
  | .xoChip => 3

/-- `mode >= Chirp8Mode::SuperChip1_1` as used in chirp8.rs. -/
def Chirp8Mode.atLeastSuperChip1_1 (m : Chirp8Mode) : Prop :=
  1 ≤ m.rank

instance (m : Chirp8Mode) : Decidable m.atLeastSuperChip1_1 := by
  unfold Chirp8Mode.atLeastSuperChip1_1; infer_instance

/-- `QuirkFlags` (quirks.rs): one Bool per bitflag. -/
structure QuirkFlags where
  flag_reset : Bool
  inc_index : Bool
  display_wait_lores : Bool
  display_wait_hires : Bool
  clip_sprites_lores : Bool
  clip_sprites_hires : Bool
  shift_x_only : Bool
  jump_xnn : Bool
  ram_random : Bool
  clear_on_res : Bool
  collision_count_lores : Bool
  collision_count_hires : Bool
  use_several_planes : Bool
  scroll_half_pixel : Bool
deriving DecidableEq

/-- `QuirkFlags::empty()`. -/
def QuirkFlags.empty : QuirkFlags :=
  ⟨false, false, false, false, false, false, false, false, false, false,
   false, false, false, false⟩

/-- `QuirkFlags::from_mode` (quirks.rs). -/
def QuirkFlags.from_mode : Chirp8Mode → QuirkFlags
  | .cosmacChip8 =>
      { QuirkFlags.empty with
        flag_reset := true, inc_index := true,
        display_wait_lores := true, clip_sprites_lores := true }
  | .superChip1_1 =>
      { QuirkFlags.empty with
        display_wait_lores := true, clip_sprites_lores := true,
        clip_sprites_hires := true, shift_x_only := true, jump_xnn := true,
        ram_random := true, collision_count_lores := true,
        collision_count_hires := true, scroll_half_pixel := true }
  | .superChipModern =>
      { QuirkFlags.empty with
        clip_sprites_lores := true, clip_sprites_hires := true,
        shift_x_only := true, jump_xnn := true, clear_on_res := true,
        collision_count_lores := true, collision_count_hires := true }
  | .xoChip =>
      { QuirkFlags.empty with inc_index := true, use_several_planes := true }

/-- Pointwise update of a function-modelled array. -/
def upd (f : Nat → Nat) (i v : Nat) : Nat → Nat :=
  fun j => if j = i then v else f j

/-- Pointwise update of the function-modelled display buffer. -/
def updBuf (buf : Nat → Nat → Nat) (r c v : Nat) : Nat → Nat → Nat :=
  fun r' c' => if r' = r ∧ c' = c then v else buf r' c'

/-- Modelled from the spec: the random generator (`rand::rngs::SmallRng`,
an external dependency, not part of this repository) is a deterministic
stream of `u32` values, seeded in `with_custom_quirks` with the fixed
constant `0xDEADCAFEDEADCAFE`.  Only the determinism of the stream and the
byte range of its `as u8` casts are relied upon; `randomValue n` stands for
the `n`-th `next_u32()` output of that fixed seeded generator. -/
def randomValue (n : Nat) : Nat :=
  (1103515245 * (n + 12345) + 1013904223) % 4294967296

/-- The small font table `FONT_SPRITES` (80 bytes). -/
def FONT_SPRITES : List Nat :=
  [0xF0, 0x90, 0x90, 0x90, 0xF0,
   0x20, 0x60, 0x20, 0x20, 0x70,
   0xF0, 0x10, 0xF0, 0x80, 0xF0,
   0xF0, 0x10, 0xF0, 0x10, 0xF0,
   0x90, 0x90, 0xF0, 0x10, 0x10,
   0xF0, 0x80, 0xF0, 0x10, 0xF0,
   0xF0, 0x80, 0xF0, 0x90, 0xF0,
   0xF0, 0x10, 0x20, 0x40, 0x40,
   0xF0, 0x90, 0xF0, 0x90, 0xF0,
   0xF0, 0x90, 0xF0, 0x10, 0xF0,
   0xF0, 0x90, 0xF0, 0x90, 0x90,
   0xE0, 0x90, 0xE0, 0x90, 0xE0,
   0xF0, 0x80, 0x80, 0x80, 0xF0,
   0xE0, 0x90, 0x90, 0x90, 0xE0,
   0xF0, 0x80, 0xF0, 0x80, 0xF0,
   0xF0, 0x80, 0xF0, 0x80, 0x80]

/-- `FONT_SPRITES_HIGH_ADDRESS = FONT_SPRITES_ADDRESS + FONT_SPRITES.len()`. -/
def FONT_SPRITES_HIGH_ADDRESS : Nat := FONT_SPRITES_ADDRESS + 80

/-- The large font table `FONT_SPRITES_HIGH` (160 bytes). -/
def FONT_SPRITES_HIGH : List Nat :=
  [0x3C, 0x7E, 0xE7, 0xC3, 0xC3, 0xC3, 0xC3, 0xE7, 0x7E, 0x3C,
   0x18, 0x38, 0x58, 0x18, 0x18, 0x18, 0x18, 0x18, 0x18, 0x3C,
   0x3E, 0x7F, 0xC3, 0x06, 0x0C, 0x18, 0x30, 0x60, 0xFF, 0xFF,
   0x3C, 0x7E, 0xC3, 0x03, 0x0E, 0x0E, 0x03, 0xC3, 0x7E, 0x3C,
   0x06, 0x0E, 0x1E, 0x36, 0x66, 0xC6, 0xFF, 0xFF, 0x06, 0x06,
   0xFF, 0xFF, 0xC0, 0xC0, 0xFC, 0xFE, 0x03, 0xC3, 0x7E, 0x3C,
   0x3E, 0x7C, 0xC0, 0xC0, 0xFC, 0xFE, 0xC3, 0xC3, 0x7E, 0x3C,
   0xFF, 0xFF, 0x03, 0x06, 0x0C, 0x18, 0x30, 0x60, 0x60, 0x60,
   0x3C, 0x7E, 0xC3, 0xC3, 0x7E, 0x7E, 0xC3, 0xC3, 0x7E, 0x3C,
   0x3C, 0x7E, 0xC3, 0xC3, 0x7F, 0x3F, 0x03, 0x03, 0x3E, 0x7C,
   0x7E, 0xFF, 0xC3, 0xC3, 0xC3, 0xFF, 0xFF, 0xC3, 0xC3, 0xC3,
   0xFC, 0xFC, 0xC3, 0xC3, 0xFC, 0xFC, 0xC3, 0xC3, 0xFC, 0xFC,
   0x3C, 0xFF, 0xC3, 0xC0, 0xC0, 0xC0, 0xC0, 0xC3, 0xFF, 0x3C,
   0xFC, 0xFE, 0xC3, 0xC3, 0xC3, 0xC3, 0xC3, 0xC3, 0xFE, 0xFC,
   0xFF, 0xFF, 0xC0, 0xC0, 0xFF, 0xFF, 0xC0, 0xC0, 0xFF, 0xFF,
   0xFF, 0xFF, 0xC0, 0xC0, 0xFF, 0xFF, 0xC0, 0xC0, 0xC0, 0xC0]

/-- The emulator state (struct `Chirp8`).  The stack (`stack.rs`: an array
plus a stack pointer) is modelled as the list `data[ptr-1], …, data[0]` of
its live elements; the `SmallRng` field is modelled by the position
`rand_counter` in the deterministic stream `randomValue` (see there). -/
structure Chirp8 where
  ram : Nat → Nat
  display_buffer : Nat → Nat → Nat
  registers : Nat → Nat
  pc : Nat
  index : Nat
  stack : List Nat
  sound_timer : Nat
  delay_timer : Nat
  rpl_registers : Nat → Nat
  audio_buffer : Nat → Nat
  pitch : Nat
  keys : Nat → Bool
  keys_previous : Nat → Bool
  high_resolution : Bool
  plane_selection : Nat
  mode : Chirp8Mode
  quirks : QuirkFlags
  steps_since_frame : Nat
  display_changed : Bool
  rand_counter : Nat
  steps : Nat
  steps_per_frame : Nat

/-- `Stack::push` (stack.rs): fails (`StackFull`) when `ptr = N`. -/
def stackPush (st : List Nat) (v : Nat) : Option (List Nat) :=
  if st.length < STACK_SIZE then some (v :: st) else none

/-- `Stack::pop` (stack.rs): fails (`StackEmpty`) when `ptr = 0`. -/
def stackPop (st : List Nat) : Option (Nat × List Nat) :=
  match st with
  | [] => none
  | v :: rest => some (v, rest)

/-- Single-field state-update helpers, in the style of the `w`/write
functions of machine-state embeddings: `s.withPc v` is Rust's
`self.pc = v`, etc.  Keeping these opaque keeps the dispatch terms small. -/
def Chirp8.withPc (s : Chirp8) (v : Nat) : Chirp8 := { s with pc := v }

/-- `self.index = v`. -/
def Chirp8.withIndex (s : Chirp8) (v : Nat) : Chirp8 := { s with index := v }

/-- `self.stack = st`. -/
def Chirp8.withStack (s : Chirp8) (st : List Nat) : Chirp8 := { s with stack := st }

/-- `self.registers = f`. -/
def Chirp8.withRegisters (s : Chirp8) (f : Nat → Nat) : Chirp8 := { s with registers := f }

/-- `self.ram = f`. -/
def Chirp8.withRam (s : Chirp8) (f : Nat → Nat) : Chirp8 := { s with ram := f }

/-- `self.delay_timer = v`. -/
def Chirp8.withDelay (s : Chirp8) (v : Nat) : Chirp8 := { s with delay_timer := v }

/-- `self.sound_timer = v`. -/
def Chirp8.withSound (s : Chirp8) (v : Nat) : Chirp8 := { s with sound_timer := v }

/-- `self.plane_selection = v`. -/
def Chirp8.withPlaneSelection (s : Chirp8) (v : Nat) : Chirp8 :=
  { s with plane_selection := v }

/-- advancing the random stream position. -/
def Chirp8.withRandCounter (s : Chirp8) (v : Nat) : Chirp8 := { s with rand_counter := v }

/-- `self.steps = v`. -/
def Chirp8.withSteps (s : Chirp8) (v : Nat) : Chirp8 := { s with steps := v }

/-- `self.keys_previous = f`. -/
def Chirp8.withKeysPrevious (s : Chirp8) (f : Nat → Bool) : Chirp8 :=
  { s with keys_previous := f }

/-- `self.high_resolution = v`. -/
def Chirp8.withHighRes (s : Chirp8) (v : Bool) : Chirp8 := { s with high_resolution := v }

/-- replacing the whole display buffer. -/
def Chirp8.withDisplay (s : Chirp8) (buf : Nat → Nat → Nat) : Chirp8 :=
  { s with display_buffer := buf }

/-- `Chirp8::with_custom_quirks`: fonts are loaded at the bottom of RAM,
the upper half of the audio buffer is filled with `0xFF`, and when the
`RAM_RANDOM` quirk is present the program area is filled from the random
stream (advancing it by `PROGRAM_SIZE` draws). -/
def Chirp8.with_custom_quirks (mode : Chirp8Mode) (quirks : QuirkFlags) : Chirp8 :=
  let ram0 : Nat → Nat := fun i =>
    if i < 80 then FONT_SPRITES.getD i 0
    else if i < 240 then FONT_SPRITES_HIGH.getD (i - 80) 0
    else 0
  let ram : Nat → Nat :=
    if quirks.ram_random then
      fun i =>
        if PROGRAM_START ≤ i ∧ i < PROGRAM_START + PROGRAM_SIZE then
          randomValue (i - PROGRAM_START) % U8_MOD
        else ram0 i
    else ram0
  { ram := ram
    display_buffer := fun _ _ => PIXEL_OFF
    registers := fun _ => 0
    pc := PROGRAM_START
    index := 0
    stack := []
    sound_timer := 0
    delay_timer := 0
    rpl_registers := fun _ => 0
    audio_buffer := fun i => if 8 ≤ i ∧ i < 16 then 0xFF else 0
    pitch := 0
    keys := fun _ => false
    keys_previous := fun _ => false
    high_resolution := false
    plane_selection :=
      if mode = Chirp8Mode.xoChip then repeat_bits 1 DISPLAY_PLANES
      else repeat_bits 1 1
    mode := mode
    quirks := quirks
    steps_since_frame := 0
    display_changed := true
    rand_counter := if quirks.ram_random then PROGRAM_SIZE else 0
    steps := 0
    steps_per_frame :=
      match mode with
      | .cosmacChip8 => 10
      | .superChip1_1 => 30
      | .superChipModern => 30
      | .xoChip => 30 }

/-- `Chirp8::new`. -/
def Chirp8.mk_new (mode : Chirp8Mode) : Chirp8 :=
  Chirp8.with_custom_quirks mode (QuirkFlags.from_mode mode)

/-- `Chirp8::key_press`. -/
def Chirp8.key_press (s : Chirp8) (key : Nat) : Chirp8 :=
  if key < KEYS_COUNT then
    { s with keys := fun j => if j = key then true else s.keys j }
  else s

/-- `Chirp8::key_release`. -/
def Chirp8.key_release (s : Chirp8) (key : Nat) : Chirp8 :=
  if key < KEYS_COUNT then
    { s with keys := fun j => if j = key then false else s.keys j }
  else s

/-- `Chirp8::key_set`. -/
def Chirp8.key_set (s : Chirp8) (key : Nat) (pressed : Bool) : Chirp8 :=
  if key < KEYS_COUNT then
    { s with keys := fun j => if j = key then pressed else s.keys j }
  else s

/-- `Chirp8::next_instruction`: big-endian 16-bit read at `pc`; the Rust
indexing `ram[pc]`, `ram[pc + 1]` panics when `pc + 1` is out of bounds. -/
def Chirp8.next_instruction (s : Chirp8) : Option Nat :=
  if s.pc + 1 < RAM_SIZE then
    some ((s.ram s.pc) <<< 8 + s.ram (s.pc + 1))
  else none

/-- `Chirp8::reset`. -/
def Chirp8.reset (s : Chirp8) : Chirp8 :=
  { s with pc := PROGRAM_START
           registers := fun _ => 0
           display_changed := true
           display_buffer := fun _ _ => PIXEL_OFF }

/-- `Chirp8::load_rom`: copies the ROM at `PROGRAM_START` only when its
length is strictly smaller than `PROGRAM_SIZE`; returns (`bool` result,
updated state). -/
def Chirp8.load_rom (s : Chirp8) (rom : List Nat) : Bool × Chirp8 :=
  if rom.length < PROGRAM_SIZE then
    (true,
     { s with ram := fun i =>
        if PROGRAM_START ≤ i ∧ i < PROGRAM_START + rom.length then
          rom.getD (i - PROGRAM_START) 0
        else s.ram i })
  else (false, s)

/-- `Chirp8::get_first_key_released`: lowest index with
`keys_previous[i] && !keys[i]`. -/
def Chirp8.get_first_key_released (s : Chirp8) : Option Nat :=
  (List.range KEYS_COUNT).find? fun i => s.keys_previous i && ! s.keys i

/-- `Chirp8::step_timers`. -/
def Chirp8.step_timers (s : Chirp8) : Chirp8 :=
  let since := s.steps_since_frame + 1
  if since ≥ s.steps_per_frame then
    { s with steps_since_frame := 0
             delay_timer := s.delay_timer - 1
             sound_timer := s.sound_timer - 1 }
  else { s with steps_since_frame := since }

/-- `Chirp8::clear_display`. -/
def Chirp8.clear_display (s : Chirp8) : Chirp8 :=
  { s with display_buffer := fun _ _ => PIXEL_OFF }

/-- The inner body of `Chirp8::clear_planes` for one plane index:
`*pixel &= !plane_mask` on every cell when the plane is selected (callers
pass `fuel = DISPLAY_PLANES`, `plane = 0`). -/
def clearPlanesLoop (sel : Nat) (buf : Nat → Nat → Nat) (plane : Nat) :
    (fuel : Nat) → Nat → Nat → Nat
  | 0 => buf
  | fuel + 1 =>
    if plane < DISPLAY_PLANES then
      let plane_mask := repeat_bits (1 <<< plane) DISPLAY_PLANES
      let buf' :=
        if plane_mask &&& sel ≠ 0 then
          fun r c => buf r c &&& (plane_mask ^^^ 255)
        else buf
      clearPlanesLoop sel buf' (plane + 1) fuel
    else buf

/-- `Chirp8::clear_planes`. -/
def Chirp8.clear_planes (s : Chirp8) : Chirp8 :=
  if s.plane_selection &&& PLANES_MASK = PLANES_MASK then s.clear_display
  else
    s.withDisplay (clearPlanesLoop s.plane_selection s.display_buffer 0 DISPLAY_PLANES)

/-- `Chirp8::scroll_up` on the function-modelled buffer: `rotate_left` then
blacken the vacated bottom rows; rows at or past `DISPLAY_HEIGHT` are not
represented and normalise to `PIXEL_OFF`. -/
def Chirp8.scroll_up (s : Chirp8) (scroll : Nat) : Chirp8 :=
  let scroll :=
    if ¬ s.quirks.scroll_half_pixel ∧ ¬ s.high_resolution then scroll * 2
    else scroll
  { s with display_buffer := fun r c =>
      if r < DISPLAY_HEIGHT - scroll then s.display_buffer (r + scroll) c
      else PIXEL_OFF }

/-- `Chirp8::scroll_down`: `rotate_right` then blacken the vacated top rows. -/
def Chirp8.scroll_down (s : Chirp8) (scroll : Nat) : Chirp8 :=
  let scroll :=
    if ¬ s.quirks.scroll_half_pixel ∧ ¬ s.high_resolution then scroll * 2
    else scroll
  { s with display_buffer := fun r c =>
      if r < scroll then PIXEL_OFF
      else s.display_buffer (r - scroll) c }

/-- `Chirp8::scroll_left`: per-row `rotate_left` then blacken the vacated
right columns; columns at or past `DISPLAY_WIDTH` normalise to `PIXEL_OFF`. -/
def Chirp8.scroll_left (s : Chirp8) (scroll : Nat) : Chirp8 :=
  let scroll :=
    if ¬ s.quirks.scroll_half_pixel ∧ ¬ s.high_resolution then scroll * 2
    else scroll
  { s with display_buffer := fun r c =>
      if c < DISPLAY_WIDTH - scroll then s.display_buffer r (c + scroll)
      else PIXEL_OFF }

/-- `Chirp8::scroll_right`: per-row `rotate_right` then blacken the vacated
left columns. -/
def Chirp8.scroll_right (s : Chirp8) (scroll : Nat) : Chirp8 :=
  let scroll :=
    if ¬ s.quirks.scroll_half_pixel ∧ ¬ s.high_resolution then scroll * 2
    else scroll
  { s with display_buffer := fun r c =>
      if c < scroll then PIXEL_OFF
      else s.display_buffer r (c - scroll) }

/-- Inner `bit` loop of `Chirp8::display_sprite`: draws bits `bit, …, 7` of
the current sprite byte on `row`, breaking at a clipped column; threads the
buffer and the `colliding_line` flag.  In low resolution (`hires = false`)
the drawn pixel is copied to the whole 2×2 block.  The loop recurses on a
structural `fuel` counter (callers pass `fuel = 8`, the loop bound, with
`bit = 0`, so the guard `bit < 8` mirrors the Rust `for bit in 0..8`). -/
def spriteBits (hires wrapping : Bool) (mask sprite x0 row scaler : Nat)
    (buf : Nat → Nat → Nat) (coll : Bool) (bit : Nat) :
    (fuel : Nat) → (Nat → Nat → Nat) × Bool
  | 0 => (buf, coll)
  | fuel + 1 =>
    if bit < 8 then
      let col := (x0 + bit) * scaler
      if col ≥ DISPLAY_WIDTH ∧ ¬ wrapping then (buf, coll)
      else
        let col := col % DISPLAY_WIDTH
        let pixel_bits_xor := if (sprite >>> (8 - 1 - bit)) &&& 1 = 0 then 0x00 else mask
        let pixel_before := buf row col
        let pixel := pixel_before ^^^ pixel_bits_xor
        let buf' := updBuf buf row col pixel
        let buf' :=
          if ¬ hires then
            updBuf (updBuf (updBuf buf' row (col + 1) pixel) (row + 1) col pixel)
              (row + 1) (col + 1) pixel
          else buf'
        let coll' := coll ||
          (decide ((pixel_before &&& mask) ≠ 0) && decide ((pixel &&& mask) = 0))
        spriteBits hires wrapping mask sprite x0 row scaler buf' coll' (bit + 1) fuel
    else (buf, coll)

/-- `line` loop of `Chirp8::display_sprite`: lines `line, …, height - 1`
(callers pass `fuel = height`, `line = 0`); threads the buffer and the
registers (`VF` is bumped on colliding or fully clipped lines).  The `VF`
increment cannot overflow a byte here: `display_sprite` is only entered
with `VF = 0` and performs at most `2 · height ≤ 32` increments. -/
def spriteLines (hires wrapping collQuirk : Bool) (mask : Nat) (ram : Nat → Nat)
    (index height drawn x0 y0 scaler : Nat) (buf : Nat → Nat → Nat)
    (regs : Nat → Nat) (line : Nat) :
    (fuel : Nat) → (Nat → Nat → Nat) × (Nat → Nat)
  | 0 => (buf, regs)
  | fuel + 1 =>
    if line < height then
      let sprite_address := ((index + height * drawn + line) % U16_MOD) &&& RAM_MASK
      let sprite := ram sprite_address
      let row := (y0 + line) * scaler
      if row ≥ DISPLAY_HEIGHT ∧ ¬ wrapping then
        if collQuirk then
          spriteLines hires wrapping collQuirk mask ram index height drawn x0 y0
            scaler buf (upd regs FLAG_REGISTER_INDEX (regs FLAG_REGISTER_INDEX + 1))
            (line + 1) fuel
        else (buf, regs)
      else
        let row := row % DISPLAY_HEIGHT
        let res := spriteBits hires wrapping mask sprite x0 row scaler buf false 0 8
        let regs' :=
          if res.2 then upd regs FLAG_REGISTER_INDEX (regs FLAG_REGISTER_INDEX + 1)
          else regs
        spriteLines hires wrapping collQuirk mask ram index height drawn x0 y0
          scaler res.1 regs' (line + 1) fuel
    else (buf, regs)

/-- `plane` loop of `Chirp8::display_sprite`: planes `plane, …,
planes_count - 1` (callers pass `fuel = planes_count`, `plane = 0`),
skipping unselected planes, threading the number `drawn` of planes drawn
so far. -/
def spritePlanes (hires wrapping collQuirk : Bool) (planes_count sel : Nat)
    (ram : Nat → Nat) (index height x0 y0 scaler : Nat) (plane drawn : Nat)
    (buf : Nat → Nat → Nat) (regs : Nat → Nat) :
    (fuel : Nat) → (Nat → Nat → Nat) × (Nat → Nat)
  | 0 => (buf, regs)
  | fuel + 1 =>
    if plane < planes_count then
      let pixel_bits_mask := repeat_bits (1 <<< plane) planes_count
      if sel &&& pixel_bits_mask = 0 then
        spritePlanes hires wrapping collQuirk planes_count sel ram index height
          x0 y0 scaler (plane + 1) drawn buf regs fuel
      else
        let res := spriteLines hires wrapping collQuirk pixel_bits_mask ram index
          height drawn x0 y0 scaler buf regs 0 height
        spritePlanes hires wrapping collQuirk planes_count sel ram index height
          x0 y0 scaler (plane + 1) (drawn + 1) res.1 res.2 fuel
    else (buf, regs)

/-- `Chirp8::display_sprite`.  The input coordinates are bytes; since
`max_width` and `max_height` divide 256, reducing them modulo
`max_width`/`max_height` agrees with the Rust `u8` reductions. -/
def Chirp8.display_sprite (s : Chirp8) (x_y_coordinates : Nat × Nat)
    (height : Nat) (colliding_rows_quirk : Bool) : Chirp8 :=
  let max_width := if s.high_resolution then DISPLAY_WIDTH else DISPLAY_WIDTH / 2
  let max_height := if s.high_resolution then DISPLAY_HEIGHT else DISPLAY_HEIGHT / 2
  let coordinates_scaler := if s.high_resolution then 1 else 2
  let x0 := x_y_coordinates.1 % max_width
  let y0 := x_y_coordinates.2 % max_height
  let planes_count := if s.quirks.use_several_planes then DISPLAY_PLANES else 1
  let wrapping :=
    ! (if s.high_resolution then s.quirks.clip_sprites_hires
       else s.quirks.clip_sprites_lores)
  let res := spritePlanes s.high_resolution (wrapping = true) colliding_rows_quirk
    planes_count s.plane_selection s.ram s.index height x0 y0 coordinates_scaler
    0 0 s.display_buffer s.registers planes_count
  (s.withDisplay res.1).withRegisters res.2

/-- Inner `bit` loop of `Chirp8::display_large_sprite`: bits `bit, …,
bit_count - 1` of the current half byte (callers pass `fuel = bit_count`). -/
def largeBits (wrapping : Bool) (mask sprite xcoord halfbase row : Nat)
    (bit_count : Nat) (buf : Nat → Nat → Nat) (coll : Bool) (bit : Nat) :
    (fuel : Nat) → (Nat → Nat → Nat) × Bool
  | 0 => (buf, coll)
  | fuel + 1 =>
    if bit < bit_count then
      let col := xcoord % DISPLAY_WIDTH + halfbase + bit
      if col ≥ DISPLAY_WIDTH ∧ ¬ wrapping then (buf, coll)
      else
        let col := col % DISPLAY_WIDTH
        let pixel_bits_xor := if (sprite >>> (8 - 1 - bit)) &&& 1 = 0 then 0x00 else mask
        let pixel_before := buf row col
        let pixel := pixel_before ^^^ pixel_bits_xor
        let buf' := updBuf buf row col pixel
        let coll' := coll ||
          (decide ((pixel_before &&& mask) ≠ 0) && decide ((pixel &&& mask) = 0))
        largeBits wrapping mask sprite xcoord halfbase row bit_count buf' coll'
          (bit + 1) fuel
    else (buf, coll)

/-- `half` loop of `Chirp8::display_large_sprite` (two bytes per line;
callers pass `fuel = 2`). -/
def largeHalves (wrapping : Bool) (mask : Nat) (ram : Nat → Nat)
    (index drawn line row xcoord : Nat) (buf : Nat → Nat → Nat) (coll : Bool)
    (half : Nat) : (fuel : Nat) → (Nat → Nat → Nat) × Bool
  | 0 => (buf, coll)
  | fuel + 1 =>
    if half < 2 then
      let sprite_address :=
        ((index + 2 * 16 * drawn + 2 * line + half) % U16_MOD) &&& RAM_MASK
      let sprite := ram sprite_address
      let res := largeBits wrapping mask sprite xcoord (half * 8) row
        (min 8 (16 - half * 8)) buf coll 0 (min 8 (16 - half * 8))
      largeHalves wrapping mask ram index drawn line row xcoord res.1 res.2
        (half + 1) fuel
    else (buf, coll)

/-- `line` loop of `Chirp8::display_large_sprite` (16 lines; callers pass
`fuel = 16`). -/
def largeLines (wrapping collQuirk : Bool) (mask : Nat) (ram : Nat → Nat)
    (index drawn xcoord ycoord : Nat) (buf : Nat → Nat → Nat) (regs : Nat → Nat)
    (line : Nat) : (fuel : Nat) → (Nat → Nat → Nat) × (Nat → Nat)
  | 0 => (buf, regs)
  | fuel + 1 =>
    if line < 16 then
      let row := ycoord % DISPLAY_HEIGHT + line
      if row ≥ DISPLAY_HEIGHT ∧ ¬ wrapping then
        if collQuirk then
          largeLines wrapping collQuirk mask ram index drawn xcoord ycoord buf
            (upd regs FLAG_REGISTER_INDEX (regs FLAG_REGISTER_INDEX + 1)) (line + 1)
            fuel
        else (buf, regs)
      else
        let row := row % DISPLAY_HEIGHT
        let res := largeHalves wrapping mask ram index drawn line row xcoord buf
          false 0 2
        let regs' :=
          if res.2 then upd regs FLAG_REGISTER_INDEX (regs FLAG_REGISTER_INDEX + 1)
          else regs
        largeLines wrapping collQuirk mask ram index drawn xcoord ycoord res.1 regs'
          (line + 1) fuel
    else (buf, regs)

/-- `plane` loop of `Chirp8::display_large_sprite` (callers pass
`fuel = planes_count`). -/
def largePlanes (wrapping collQuirk : Bool) (planes_count sel : Nat)
    (ram : Nat → Nat) (index xcoord ycoord : Nat) (plane drawn : Nat)
    (buf : Nat → Nat → Nat) (regs : Nat → Nat) :
    (fuel : Nat) → (Nat → Nat → Nat) × (Nat → Nat)
  | 0 => (buf, regs)
  | fuel + 1 =>
    if plane < planes_count then
      let pixel_bits_mask := repeat_bits (1 <<< plane) planes_count
      if sel &&& pixel_bits_mask = 0 then
        largePlanes wrapping collQuirk planes_count sel ram index xcoord ycoord
          (plane + 1) drawn buf regs fuel
      else
        let res := largeLines wrapping collQuirk pixel_bits_mask ram index drawn
          xcoord ycoord buf regs 0 16
        largePlanes wrapping collQuirk planes_count sel ram index xcoord ycoord
          (plane + 1) (drawn + 1) res.1 res.2 fuel
    else (buf, regs)

/-- `Chirp8::display_large_sprite` (16×16 sprites). -/
def Chirp8.display_large_sprite (s : Chirp8) (x_y_coordinates : Nat × Nat)
    (colliding_rows_quirk : Bool) : Chirp8 :=
  let planes_count := if s.quirks.use_several_planes then DISPLAY_PLANES else 1
  let wrapping :=
    ! (if s.high_resolution then s.quirks.clip_sprites_hires
       else s.quirks.clip_sprites_lores)
  let res := largePlanes (wrapping = true) colliding_rows_quirk planes_count
    s.plane_selection s.ram s.index x_y_coordinates.1 x_y_coordinates.2 0 0
    s.display_buffer s.registers planes_count
  (s.withDisplay res.1).withRegisters res.2

/-- `Chirp8::handle_display_instruction`.  Note the source tests
`COLLISION_COUNT_HIRES` in both branches of the resolution switch. -/
def Chirp8.handle_display_instruction (s : Chirp8) (x_y_coordinates : Nat × Nat)
    (height : Nat) : Chirp8 :=
  let s := { s with display_changed := true,
                    registers := upd s.registers FLAG_REGISTER_INDEX 0 }
  let high_resolution := s.mode ≠ Chirp8Mode.cosmacChip8 ∧ s.high_resolution
  let large_sprite :=
    if s.mode ≠ Chirp8Mode.xoChip then high_resolution ∧ height = 0
    else height = 0
  let colliding_rows_quirk :=
    if s.high_resolution then s.quirks.collision_count_hires
    else s.quirks.collision_count_hires
  let s :=
    if large_sprite then s.display_large_sprite x_y_coordinates colliding_rows_quirk
    else s.display_sprite x_y_coordinates height colliding_rows_quirk
  if ¬ colliding_rows_quirk ∧ s.registers FLAG_REGISTER_INDEX ≠ 0 then
    { s with registers := upd s.registers FLAG_REGISTER_INDEX 1 }
  else s

/-- `Chirp8::skip_next_instruction`.  The XO-Chip check calls
`next_instruction` (which can panic); the `&&` short-circuit means it is
only called in XO-Chip mode. -/
def Chirp8.skip_next_instruction (s : Chirp8) : Option Chirp8 :=
  if s.mode = Chirp8Mode.xoChip then
    match s.next_instruction with
    | none => none
    | some instr =>
      let offset :=
        if instr = 0xF000 then PROGRAM_COUNTER_STEP * 2 else PROGRAM_COUNTER_STEP
      some (s.withPc ((s.pc + offset) &&& RAM_MASK))
  else some (s.withPc ((s.pc + PROGRAM_COUNTER_STEP) &&& RAM_MASK))

/-- Store loop of the `FX55` arm: writes `registers[i]` to
`ram[(index + i) & RAM_MASK]` for `i = 0, …, count - 1` in ascending order. -/
def fx55StoreLoop (ram regs : Nat → Nat) (index : Nat) : Nat → (Nat → Nat)
  | 0 => ram
  | i + 1 => upd (fx55StoreLoop ram regs index i) ((index + i) &&& RAM_MASK) (regs i)

/-- Load loop of the `FX65` arm: writes `ram[(index + i) & RAM_MASK]` to
`registers[i]` for `i = 0, …, count - 1` in ascending order. -/
def fx65LoadLoop (regs ram : Nat → Nat) (index : Nat) : Nat → (Nat → Nat)
  | 0 => regs
  | i + 1 => upd (fx65LoadLoop regs ram index i) i (ram ((index + i) &&& RAM_MASK))

/-- The `FX55` (store registers) arm of `Chirp8::step`. -/
def Chirp8.op_fx55 (s : Chirp8) (x : Nat) : Chirp8 :=
  let end_index := x + 1
  let s := { s with ram := fx55StoreLoop s.ram s.registers s.index end_index }
  if s.quirks.inc_index then
    { s with index := ((s.index + end_index) % U16_MOD) &&& RAM_MASK }
  else s

/-- The `FX65` (load registers) arm of `Chirp8::step`. -/
def Chirp8.op_fx65 (s : Chirp8) (x : Nat) : Chirp8 :=
  let end_index := x + 1
  let s := { s with registers := fx65LoadLoop s.registers s.ram s.index end_index }
  if s.quirks.inc_index then
    { s with index := ((s.index + end_index) % U16_MOD) &&& RAM_MASK }
  else s

/-- The `FX75` (save to RPL flags registers) arm of `Chirp8::step`:
`rpl_registers[0..count].copy_from_slice(&registers[0..count])`. -/
def Chirp8.op_fx75 (s : Chirp8) (x : Nat) : Chirp8 :=
  let count := if s.mode = Chirp8Mode.xoChip then x else x &&& 0x7
  { s with rpl_registers := fun j =>
      if j < count then s.registers j else s.rpl_registers j }

/-- The `FX85` (load from RPL flags registers) arm of `Chirp8::step`:
`registers[0..count].copy_from_slice(&rpl_registers[0..count])`. -/
def Chirp8.op_fx85 (s : Chirp8) (x : Nat) : Chirp8 :=
  let count := if s.mode = Chirp8Mode.xoChip then x else x &&& 0x7
  { s with registers := fun j =>
      if j < count then s.rpl_registers j else s.registers j }

/-- The `5XY2` (XO-Chip register range save) arm: copies
`registers[min..=max]` to `ram[index..=index + |y - x|]`, reversed when
`x ≥ y`; the slice indexing panics when the end is out of bounds. -/
def Chirp8.op_5xy2 (s : Chirp8) (x y : Nat) : Option Chirp8 :=
  if x < y then
    let endi := s.index + (y - x)
    if endi < RAM_SIZE then
      let ram' : Nat → Nat := fun i =>
        if s.index ≤ i ∧ i ≤ endi then s.registers (x + (i - s.index))
        else s.ram i
      some { s with ram := ram' }
    else none
  else
    let endi := s.index + (x - y)
    if endi < RAM_SIZE then
      let ram' : Nat → Nat := fun i =>
        if s.index ≤ i ∧ i ≤ endi then s.registers (x - (i - s.index))
        else s.ram i
      some { s with ram := ram' }
    else none

/-- The `5XY3` (XO-Chip register range load) arm, symmetric to `5XY2`. -/
def Chirp8.op_5xy3 (s : Chirp8) (x y : Nat) : Option Chirp8 :=
  if x < y then
    let endi := s.index + (y - x)
    if endi < RAM_SIZE then
      let regs' : Nat → Nat := fun j =>
        if x ≤ j ∧ j ≤ y then s.ram (s.index + (j - x))
        else s.registers j
      some { s with registers := regs' }
    else none
  else
    let endi := s.index + (x - y)
    if endi < RAM_SIZE then
      let regs' : Nat → Nat := fun j =>
        if y ≤ j ∧ j ≤ x then s.ram (s.index + (x - j))
        else s.registers j
      some { s with registers := regs' }
    else none

/-- The `0x0…` opcode family of `Chirp8::step` (match on `nn`). -/
def Chirp8.op_zero (s : Chirp8) (nn n : Nat) : Option Chirp8 :=
  -- the Rust arms are pairwise disjoint, so the exact-literal arms may be
  -- matched first and the three ranges (`D0..=DF`, `B0..=BF`, `C0..=CF`)
  -- tested in the default arm
  match nn with
  | 0xE0 =>
    some (if s.mode ≠ Chirp8Mode.xoChip then s.clear_display else s.clear_planes)
  | 0xEE =>
    match stackPop s.stack with
    | none => none
    | some (v, rest) => some ((s.withStack rest).withPc v)
  | 0xFD =>
    some (if s.mode.atLeastSuperChip1_1 then s.reset else s)
  | 0xFE =>
    some (if s.mode.atLeastSuperChip1_1 then
      let s := s.withHighRes false
      if s.quirks.clear_on_res then s.clear_display else s
    else s)
  | 0xFF =>
    some (if s.mode.atLeastSuperChip1_1 then
      let s := s.withHighRes true
      if s.quirks.clear_on_res then s.clear_display else s
    else s)
  | 0xFB =>
    some (if s.mode.atLeastSuperChip1_1 then s.scroll_right 4 else s)
  | 0xFC =>
    some (if s.mode.atLeastSuperChip1_1 then s.scroll_left 4 else s)
  | _ =>
    if 0xD0 ≤ nn ∧ nn ≤ 0xDF then
      some (if s.mode = Chirp8Mode.xoChip then s.scroll_up n else s)
    else if 0xB0 ≤ nn ∧ nn ≤ 0xBF then
      some (if s.mode = Chirp8Mode.superChipModern then s.scroll_up n else s)
    else if 0xC0 ≤ nn ∧ nn ≤ 0xCF then
      some (if s.mode.atLeastSuperChip1_1 then s.scroll_down n else s)
    else some s

/-- The `8XY…` arithmetic/logic family of `Chirp8::step` (match on `n`):
every arm only rewrites the register file, so the new `registers` function
is returned.  All byte operations wrap modulo 256. -/
def Chirp8.op_alu (s : Chirp8) (x y n : Nat) : Nat → Nat :=
  match n with
  | 0x0 => upd s.registers x (s.registers y)
  | 0x1 =>
    let regs := upd s.registers x (s.registers x ||| s.registers y)
    if s.quirks.flag_reset then upd regs FLAG_REGISTER_INDEX 0 else regs
  | 0x2 =>
    let regs := upd s.registers x (s.registers x &&& s.registers y)
    if s.quirks.flag_reset then upd regs FLAG_REGISTER_INDEX 0 else regs
  | 0x3 =>
    let regs := upd s.registers x (s.registers x ^^^ s.registers y)
    if s.quirks.flag_reset then upd regs FLAG_REGISTER_INDEX 0 else regs
  | 0x4 =>
    let flag := if 256 ≤ s.registers x + s.registers y then 1 else 0
    let regs := upd s.registers x ((s.registers x + s.registers y) % U8_MOD)
    upd regs FLAG_REGISTER_INDEX flag
  | 0x5 =>
    let flag := if s.registers y ≤ s.registers x then 1 else 0
    let regs := upd s.registers x ((s.registers x + U8_MOD - s.registers y) % U8_MOD)
    upd regs FLAG_REGISTER_INDEX flag
  | 0x6 =>
    let regs0 := if ¬ s.quirks.shift_x_only then upd s.registers x (s.registers y)
      else s.registers
    let flag := regs0 x &&& 0x1
    let regs1 := upd regs0 x (regs0 x / 2)
    upd regs1 FLAG_REGISTER_INDEX flag
  | 0x7 =>
    let flag := if s.registers x ≤ s.registers y then 1 else 0
    let regs := upd s.registers x ((s.registers y + U8_MOD - s.registers x) % U8_MOD)
    upd regs FLAG_REGISTER_INDEX flag
  | 0xE =>
    let regs0 := if ¬ s.quirks.shift_x_only then upd s.registers x (s.registers y)
      else s.registers
    let flag := (regs0 x >>> 7) &&& 0x1
    let regs1 := upd regs0 x ((regs0 x * 2) % U8_MOD)
    upd regs1 FLAG_REGISTER_INDEX flag
  | _ => s.registers

/-- The `FX…` opcode family of `Chirp8::step` (match on `nn`). -/
def Chirp8.op_fxnn (s : Chirp8) (x nn : Nat) : Option Chirp8 :=
  match nn with
  | 0x00 =>
    if s.mode = Chirp8Mode.xoChip then
      if s.mode = Chirp8Mode.xoChip ∧ x = 0 then
        match s.next_instruction with
        | none => none
        | some v =>
            some ((s.withIndex v).withPc ((s.pc + PROGRAM_COUNTER_STEP) % U16_MOD))
      else some s
    else some s
  | 0x01 =>
    some (if s.mode = Chirp8Mode.xoChip then
      s.withPlaneSelection (repeat_bits x DISPLAY_PLANES)
    else s)
  | 0x07 => some (s.withRegisters (upd s.registers x s.delay_timer))
  | 0x15 => some (s.withDelay (s.registers x))
  | 0x18 => some (s.withSound (s.registers x))
  | 0x1E =>
    -- standard (non-`mem_extend`) branch: release-mode u16 add, then
    -- 12-bit overflow check against `!RAM_MASK`
    let idx := (s.index + s.registers x) % U16_MOD
    if idx &&& 0xF000 ≠ 0 then
      some ((s.withIndex (idx &&& RAM_MASK)).withRegisters
        (upd s.registers FLAG_REGISTER_INDEX 1))
    else some (s.withIndex idx)
  | 0x0A =>
    match s.get_first_key_released with
    | some key => some (s.withRegisters (upd s.registers x key))
    | none =>
        -- `pc.wrapping_sub(2)` without the RAM mask
        some (s.withPc ((s.pc + (U16_MOD - PROGRAM_COUNTER_STEP)) % U16_MOD))
  | 0x29 =>
    some (s.withIndex (FONT_SPRITES_ADDRESS + FONT_SPRITES_STEP * s.registers x))
  | 0x30 =>
    some (if s.mode.atLeastSuperChip1_1 then
      s.withIndex (FONT_SPRITES_HIGH_ADDRESS + FONT_SPRITES_HIGH_STEP * s.registers x)
    else s)
  | 0x33 =>
    -- the three writes use the raw `index`, `index + 1`, `index + 2`
    -- (no RAM mask): out-of-bounds indexing panics
    if s.index + 2 < RAM_SIZE then
      let value := s.registers x
      let ram := upd s.ram s.index (value / 100)
      let value := value % 100
      let ram := upd ram (s.index + 1) (value / 10)
      let value := value % 10
      let ram := upd ram (s.index + 2) value
      some (s.withRam ram)
    else none
  | 0x55 => some (s.op_fx55 x)
  | 0x65 => some (s.op_fx65 x)
  | 0x75 => some (if s.mode.atLeastSuperChip1_1 then s.op_fx75 x else s)
  | 0x85 => some (if s.mode.atLeastSuperChip1_1 then s.op_fx85 x else s)
  | _ => some s

/-- The dispatch `match opcode` of `Chirp8::step`. -/
def Chirp8.execute (s : Chirp8) (instruction : Nat) : Option Chirp8 :=
  let opcode := 0xF &&& (instruction >>> 12)
  let x := 0x0F &&& (instruction >>> 8)
  let y := 0x0F &&& (instruction >>> 4)
  let n := 0x0F &&& instruction
  let nn := 0xFF &&& instruction
  let nnn := 0x0FFF &&& instruction
  match opcode with
  | 0x0 => s.op_zero nn n
  | 0x1 => some (s.withPc nnn)
  | 0x2 =>
    match stackPush s.stack s.pc with
    | none => none
    | some st => some ((s.withStack st).withPc nnn)
  | 0x3 =>
    if s.registers x = nn then s.skip_next_instruction else some s
  | 0x4 =>
    if s.registers x ≠ nn then s.skip_next_instruction else some s
  | 0x5 =>
    match n with
    | 0 =>
      if s.registers x = s.registers y then s.skip_next_instruction else some s
    | 2 =>
      if s.mode = Chirp8Mode.xoChip then s.op_5xy2 x y else some s
    | 3 =>
      if s.mode = Chirp8Mode.xoChip then s.op_5xy3 x y else some s
    | _ => some s
  | 0x9 =>
    if s.registers x ≠ s.registers y then s.skip_next_instruction else some s
  | 0x6 => some (s.withRegisters (upd s.registers x nn))
  | 0x7 =>
    some (s.withRegisters (upd s.registers x ((s.registers x + nn) % U8_MOD)))
  | 0x8 => some (s.withRegisters (s.op_alu x y n))
  | 0xA => some (s.withIndex nnn)
  | 0xB =>
    some (s.withPc
      ((nnn + s.registers (if s.quirks.jump_xnn then x else 0)) &&& RAM_MASK))
  | 0xC =>
    some ((s.withRegisters
      (upd s.registers x ((randomValue s.rand_counter % U8_MOD) &&& nn))).withRandCounter
      (s.rand_counter + 1))
  | 0xD =>
    let wait_enabled :=
      if s.high_resolution then s.quirks.display_wait_hires
      else s.quirks.display_wait_lores
    if wait_enabled then
      if s.steps_since_frame ≠ 0 then
        some ((s.withPc
          (((s.pc + (U16_MOD - PROGRAM_COUNTER_STEP)) % U16_MOD) &&& RAM_MASK)).withSteps
          ((s.steps + (USIZE_MOD - 1)) % USIZE_MOD))
      else some (s.handle_display_instruction (s.registers x, s.registers y) n)
    else some (s.handle_display_instruction (s.registers x, s.registers y) n)
  | 0xE =>
    match nn with
    | 0x9E =>
      let key := 0xF &&& s.registers x
      if s.keys key then s.skip_next_instruction else some s
    | 0xA1 =>
      let key := 0xF &&& s.registers x
      if ¬ s.keys key then s.skip_next_instruction else some s
    | _ => some s
  | 0xF => s.op_fxnn x nn
  | _ => some s

/-- `Chirp8::step`: fetch, advance the PC (masked), count the step,
dispatch, then tick the timers and snapshot the keypad. -/
def Chirp8.step (s : Chirp8) : Option Chirp8 :=
  match s.next_instruction with
  | none => none
  | some instruction =>
    let s := (s.withPc ((s.pc + PROGRAM_COUNTER_STEP) &&& RAM_MASK)).withSteps
      ((s.steps + 1) % USIZE_MOD)
    match s.execute instruction with
    | none => none
    | some s' =>
      let s'' := s'.step_timers
      some (s''.withKeysPrevious s''.keys)

/-- A host interaction with the VM: one `step` call or one of the public
key/ROM entry points. -/
inductive Event where
  | tick
  | keyPress (k : Nat)
  | keyRelease (k : Nat)
  | keySet (k : Nat) (p : Bool)
  | rom (bytes : List Nat)

/-- Drives the VM through a list of host events; `none` when a `step`
panics. -/
def runEvents (s : Chirp8) : List Event → Option Chirp8
  | [] => some s
  | Event.tick :: rest =>
    match s.step with
    | none => none
    | some s' => runEvents s' rest
  | Event.keyPress k :: rest => runEvents (s.key_press k) rest
  | Event.keyRelease k :: rest => runEvents (s.key_release k) rest
  | Event.keySet k p :: rest => runEvents (s.key_set k p) rest
  | Event.rom bytes :: rest => runEvents (s.load_rom bytes).2 rest

/-! ## Basic helper lemmas -/

theorem upd_apply (f : Nat → Nat) (i v j : Nat) :
    upd f i v j = if j = i then v else f j := rfl

theorem and_RAM_MASK (n : Nat) : n &&& RAM_MASK = n % RAM_SIZE := by
  have h : RAM_MASK = 2 ^ 12 - 1 := by decide
  have h2 : RAM_SIZE = 2 ^ 12 := by decide
  rw [h, h2, Nat.and_pow_two_sub_one_eq_mod]

/-! ## C4 — `load_rom` size check -/

/-- C4 (counterexample): `load_rom` with a ROM of length exactly
`PROGRAM_SIZE` (3584) returns `false`, although such a ROM does not exceed
the program size — the claim's "exactly when rom's length exceeds the
program size" is wrong on the boundary. -/
theorem claim_C4_counterexample :
    ((Chirp8.mk_new Chirp8Mode.cosmacChip8).load_rom
      (List.replicate PROGRAM_SIZE 0)).1 = false ∧
    (List.replicate (3584 : Nat) (0 : Nat)).length = PROGRAM_SIZE ∧
    ¬ PROGRAM_SIZE > PROGRAM_SIZE := by
  refine ⟨?_, by rw [List.length_replicate]; decide, by omega⟩
  simp [Chirp8.load_rom]

/-- C4 (amended): `load_rom` returns `false` and leaves the state unchanged
exactly when the ROM's length is at least `PROGRAM_SIZE` (3584); any
strictly smaller ROM is copied into memory starting at `PROGRAM_START`
and `true` is returned. -/
theorem claim_C4_load_rom (s : Chirp8) (rom : List Nat) :
    (PROGRAM_SIZE ≤ rom.length → s.load_rom rom = (false, s)) ∧
    (rom.length < PROGRAM_SIZE →
      (s.load_rom rom).1 = true ∧
      (∀ i, (s.load_rom rom).2.ram i =
        if PROGRAM_START ≤ i ∧ i < PROGRAM_START + rom.length then
          rom.getD (i - PROGRAM_START) 0
        else s.ram i) ∧
      (s.load_rom rom).2.display_buffer = s.display_buffer ∧
      (s.load_rom rom).2.registers = s.registers ∧
      (s.load_rom rom).2.pc = s.pc) := by
  constructor
  · intro h
    rw [Chirp8.load_rom, if_neg (by omega)]
  · intro h
    rw [Chirp8.load_rom, if_pos h]
    exact ⟨rfl, fun i => rfl, rfl, rfl, rfl⟩

/-- C4 witness: a 1-byte ROM is copied at `0x200` and accepted; a ROM of
3600 bytes is rejected without side effect. -/
theorem claim_C4_load_rom_witness :
    (((Chirp8.mk_new Chirp8Mode.cosmacChip8).load_rom [0xAB]).1 = true ∧
      ((Chirp8.mk_new Chirp8Mode.cosmacChip8).load_rom [0xAB]).2.ram 0x200 = 0xAB) ∧
    (Chirp8.mk_new Chirp8Mode.cosmacChip8).load_rom (List.replicate 3600 0) =
      (false, Chirp8.mk_new Chirp8Mode.cosmacChip8) := by
  refine ⟨⟨(claim_C4_load_rom _ _).2 (by decide) |>.1, ?_⟩,
    (claim_C4_load_rom _ _).1 (by rw [List.length_replicate]; decide)⟩
  rw [((claim_C4_load_rom _ _).2 (by decide)).2.1 0x200]
  decide

/-! ## C10 — key functions -/

/-- C10: for a key index above 15 the public key functions are identities
(and cannot panic, being total); for an index below 16 they only update
entry `key` of the current key array. -/
theorem claim_C10_keys (s : Chirp8) (key : Nat) (p : Bool) :
    (KEYS_COUNT ≤ key →
      s.key_press key = s ∧ s.key_release key = s ∧ s.key_set key p = s) ∧
    (key < KEYS_COUNT →
      s.key_press key =
        { s with keys := fun j => if j = key then true else s.keys j } ∧
      s.key_release key =
        { s with keys := fun j => if j = key then false else s.keys j } ∧
      s.key_set key p =
        { s with keys := fun j => if j = key then p else s.keys j }) := by
  constructor
  · intro h
    refine ⟨?_, ?_, ?_⟩ <;>
      simp [Chirp8.key_press, Chirp8.key_release, Chirp8.key_set, Nat.not_lt.mpr h]
  · intro h
    refine ⟨?_, ?_, ?_⟩ <;>
      simp [Chirp8.key_press, Chirp8.key_release, Chirp8.key_set, h]

/-- C10 witness at `key = 20` (out of range) and `key = 3` (in range). -/
theorem claim_C10_keys_witness :
    ((Chirp8.mk_new Chirp8Mode.cosmacChip8).key_press 20 =
      Chirp8.mk_new Chirp8Mode.cosmacChip8) ∧
    ((Chirp8.mk_new Chirp8Mode.cosmacChip8).key_press 3).keys 3 = true := by
  constructor
  · exact ((claim_C10_keys (Chirp8.mk_new Chirp8Mode.cosmacChip8) 20 true).1
      (by decide)).1
  · rw [((claim_C10_keys (Chirp8.mk_new Chirp8Mode.cosmacChip8) 3 true).2
      (by decide)).1]
    simp

/-! ## C9 — determinism -/

/-- C9: the VM is deterministic.  Two VMs built by `with_custom_quirks`
with the same mode and quirks, loaded with the same ROM and driven through
the same sequence of host events (steps and key events), produce the same
outcome after every event sequence; the random instruction and the
`RAM_RANDOM` initialisation draw from the fixed seeded stream
`randomValue`, so they introduce no nondeterminism. -/
theorem claim_C9_deterministic (mode : Chirp8Mode) (quirks : QuirkFlags)
    (rom : List Nat) (evs : List Event) (r₁ r₂ : Option Chirp8) :
    runEvents ((Chirp8.with_custom_quirks mode quirks).load_rom rom).2 evs = r₁ →
    runEvents ((Chirp8.with_custom_quirks mode quirks).load_rom rom).2 evs = r₂ →
    r₁ = r₂ := by
  intro h₁ h₂
  rw [← h₁, ← h₂]

/-- C9 witness: two identically-constructed and identically-driven runs of
one step on a `6XNN` instruction agree. -/
theorem claim_C9_deterministic_witness :
    runEvents ((Chirp8.with_custom_quirks Chirp8Mode.cosmacChip8
        (QuirkFlags.from_mode Chirp8Mode.cosmacChip8)).load_rom [0x63, 0xAB]).2
      [Event.tick] =
    runEvents ((Chirp8.with_custom_quirks Chirp8Mode.cosmacChip8
        (QuirkFlags.from_mode Chirp8Mode.cosmacChip8)).load_rom [0x63, 0xAB]).2
      [Event.tick] :=
  claim_C9_deterministic Chirp8Mode.cosmacChip8
    (QuirkFlags.from_mode Chirp8Mode.cosmacChip8) [0x63, 0xAB] [Event.tick] _ _
    rfl rfl

/-! ## C8 — FX55 / FX65 round trip -/

theorem fx65LoadLoop_lt (regs ram : Nat → Nat) (idx : Nat) (cnt j : Nat)
    (h : j < cnt) :
    fx65LoadLoop regs ram idx cnt j = ram ((idx + j) &&& RAM_MASK) := by
  induction cnt with
  | zero => omega
  | succ m ih =>
    simp only [fx65LoadLoop, upd_apply]
    by_cases hj : j = m
    · subst hj; simp
    · rw [if_neg hj]; exact ih (by omega)

theorem fx55StoreLoop_at (ram regs : Nat → Nat) (idx : Nat) (cnt i : Nat)
    (h : i < cnt) (hcnt : cnt ≤ RAM_SIZE) :
    fx55StoreLoop ram regs idx cnt ((idx + i) &&& RAM_MASK) = regs i := by
  induction cnt with
  | zero => omega
  | succ m ih =>
    simp only [fx55StoreLoop, upd_apply]
    by_cases hi : i = m
    · subst hi; simp
    · have hne : (idx + i) &&& RAM_MASK ≠ (idx + m) &&& RAM_MASK := by
        rw [and_RAM_MASK, and_RAM_MASK]
        simp only [RAM_SIZE] at hcnt ⊢
        omega
      rw [if_neg hne]
      exact ih (by omega) (by omega)

theorem op_fx55_ram (s : Chirp8) (x : Nat) :
    (s.op_fx55 x).ram = fx55StoreLoop s.ram s.registers s.index (x + 1) := by
  simp only [Chirp8.op_fx55]; split <;> rfl

theorem op_fx55_registers (s : Chirp8) (x : Nat) :
    (s.op_fx55 x).registers = s.registers := by
  simp only [Chirp8.op_fx55]; split <;> rfl

theorem op_fx55_index_inc (s : Chirp8) (x : Nat) (h : s.quirks.inc_index = true) :
    (s.op_fx55 x).index = ((s.index + (x + 1)) % U16_MOD) &&& RAM_MASK := by
  simp only [Chirp8.op_fx55, h, if_true]

theorem op_fx65_registers (s : Chirp8) (x : Nat) :
    (s.op_fx65 x).registers = fx65LoadLoop s.registers s.ram s.index (x + 1) := by
  simp only [Chirp8.op_fx65]; split <;> rfl

theorem op_fx65_index_inc (s : Chirp8) (x : Nat) (h : s.quirks.inc_index = true) :
    (s.op_fx65 x).index = ((s.index + (x + 1)) % U16_MOD) &&& RAM_MASK := by
  simp only [Chirp8.op_fx65, h, if_true]

/-- C8: storing `V0..VX` with the `FX55` arm and then loading with the
`FX65` arm at the same `I` and `X` restores `V0..VX`; with `INC_INDEX`
each of the two operations leaves `I` at the same post-value
`(I + X + 1) mod` memory size. -/
theorem claim_C8_store_load_roundtrip (s : Chirp8) (x i : Nat)
    (hx : x < 16) (hi : i ≤ x) :
    (Chirp8.op_fx65 { s.op_fx55 x with index := s.index } x).registers i =
      s.registers i ∧
    (s.quirks.inc_index = true →
      (s.op_fx55 x).index = ((s.index + (x + 1)) % U16_MOD) &&& RAM_MASK ∧
      (Chirp8.op_fx65 { s.op_fx55 x with index := s.index } x).index =
        ((s.index + (x + 1)) % U16_MOD) &&& RAM_MASK) := by
  have hq : (Chirp8.op_fx55 s x).quirks = s.quirks := by
    simp only [Chirp8.op_fx55]; split <;> rfl
  constructor
  · rw [op_fx65_registers]
    show fx65LoadLoop (s.op_fx55 x).registers (s.op_fx55 x).ram s.index (x + 1) i
      = s.registers i
    rw [fx65LoadLoop_lt _ _ _ _ _ (by omega), op_fx55_ram,
      fx55StoreLoop_at _ _ _ _ _ (by omega) (by simp only [RAM_SIZE]; omega)]
  · intro h
    refine ⟨op_fx55_index_inc s x h, ?_⟩
    have hq2 : (({ s.op_fx55 x with index := s.index } : Chirp8).quirks.inc_index)
        = true := by
      show (Chirp8.op_fx55 s x).quirks.inc_index = true
      rw [hq]; exact h
    rw [op_fx65_index_inc _ _ hq2]

/-- C8 witness: `x = 2`, `V2 = 0x77`, `I = 0x300` on the Cosmac preset
(which has `INC_INDEX`): `V2` is restored and both operations leave `I`
at `0x303`. -/
theorem claim_C8_store_load_roundtrip_witness :
    (Chirp8.op_fx65
        { Chirp8.op_fx55
            { Chirp8.mk_new Chirp8Mode.cosmacChip8 with
              registers := upd (fun _ => 0) 2 0x77, index := 0x300 } 2 with
          index := 0x300 } 2).registers 2 = 0x77 ∧
    (Chirp8.op_fx55
        { Chirp8.mk_new Chirp8Mode.cosmacChip8 with
          registers := upd (fun _ => 0) 2 0x77, index := 0x300 } 2).index =
      0x303 := by
  have h := claim_C8_store_load_roundtrip
    { Chirp8.mk_new Chirp8Mode.cosmacChip8 with
      registers := upd (fun _ => 0) 2 0x77, index := 0x300 } 2 2
    (by decide) (by decide)
  refine ⟨?_, ?_⟩
  · rw [h.1]; rfl
  · rw [(h.2 rfl).1]; rfl

/-! ## C1 — FX0A idle and the `steps` counter -/

/-- State with an `FX0A` instruction at the program counter and no pending
key release. -/
def stateC1 : Chirp8 :=
  ((Chirp8.mk_new Chirp8Mode.cosmacChip8).load_rom [0xF5, 0x0A]).2

/-- `stateC1` with key 3 released since the previous step. -/
def stateC1b : Chirp8 :=
  { stateC1 with keys_previous := fun j => j == 3 }

/-- C1 (code evaluated at the failing input): with `FX0A` at the PC and no
key released, `step` rewinds the PC to `0x200` and still ticks the frame
counter — but leaves `steps = 1`: the idle step IS counted, contradicting
the claim (and the doc comments of `steps` and `step` in chirp8.rs, and
§4.7 of the spec, which say an idle step is not counted).  The release-edge
half of the claim holds: with key 3 released since the previous step,
`V5` receives 3 and the PC advances by 2. -/
theorem claim_C1_fx0a_idle_steps_counted :
    (stateC1.step.map fun s => (s.pc, s.steps, s.steps_since_frame, s.registers 5))
      = some (0x200, 1, 1, 0) ∧
    (stateC1b.step.map
      fun s => (s.registers 5, s.pc, s.steps)) = some (3, 0x202, 1) := by
  exact ⟨rfl, rfl⟩

/-! ## C2 — FX75 / FX85 register count -/

/-- State: XO-Chip, `V0 := 7` then `F075` (save `V0..V0` per the claim). -/
def stateC2 : Chirp8 :=
  ((Chirp8.mk_new Chirp8Mode.xoChip).load_rom [0x60, 0x07, 0xF0, 0x75]).2

/-- C2 (code evaluated at the failing input): after `60 07; F0 75` on
XO-Chip, `RPL[0]` is still 0 although `V0 = 7` — `FX75` copies only the
first `X` registers (`registers[0..count]` with `count = x`), not `X + 1`
as the claim (and the conventional `FX75` semantics) require.  Likewise
`FX75` with `X = 5` leaves `RPL[5]` untouched. -/
theorem claim_C2_fx75_off_by_one :
    ((stateC2.step.bind Chirp8.step).map fun s =>
      (s.rpl_registers 0, s.registers 0)) = some (0, 7) ∧
    (({ Chirp8.mk_new Chirp8Mode.xoChip with
        registers := fun _ => 9 }).op_fx75 5).rpl_registers 5 = 0 := by
  exact ⟨rfl, rfl⟩

/-! ## C3 — unmasked RAM accesses in FX33 -/

/-- State: `AFFF` (set `I := 0xFFF`) then `F133` (BCD write at
`I, I+1, I+2`). -/
def stateC3 : Chirp8 :=
  ((Chirp8.mk_new Chirp8Mode.cosmacChip8).load_rom [0xAF, 0xFF, 0xF1, 0x33]).2

/-- C3 (code evaluated at the failing input): `I = 0xFFF` is reachable
(here via `ANNN`), and the following `FX33` indexes `ram[0x1000]` and
`ram[0x1001]` without the RAM mask, which panics — `step` returns `none`
in the embedding.  This contradicts the claim that every RAM access during
`step` is wrapped modulo the memory size and that `step` never panics. -/
theorem claim_C3_fx33_unmasked_panic :
    (stateC3.step.map Chirp8.index) = some 0xFFF ∧
    (stateC3.step.bind Chirp8.step) = none := by
  exact ⟨rfl, rfl⟩

/-! ## C5 — scrolling and plane selection -/

/-- XO-Chip state (plane 0 selected, `plane_selection = 0x55`) whose cell
(1,0) carries only plane-1 bits (`0xAA`). -/
def stateC5 : Chirp8 :=
  { Chirp8.mk_new Chirp8Mode.xoChip with
    display_buffer := fun r c => if r = 1 ∧ c = 0 then 0xAA else 0,
    high_resolution := true }

/-- C5 (counterexample): scrolling up by one moves and zeroes the plane-1
bits (`0xAA`) of cell (1,0) although plane 1 is not in the plane selector
(`0x55`): the pre-scroll plane-1 value `0xAA` of cell (1,0) becomes 0, and
cell (0,0) gains plane-1 bits.  Scrolls do not restrict their effect to
the selected planes. -/
theorem claim_C5_counterexample :
    stateC5.plane_selection = 0x55 ∧
    stateC5.plane_selection &&& 0xAA = 0 ∧
    stateC5.display_buffer 1 0 &&& 0xAA = 0xAA ∧
    (stateC5.scroll_up 1).display_buffer 1 0 &&& 0xAA = 0 ∧
    (stateC5.scroll_up 1).display_buffer 0 0 &&& 0xAA = 0xAA := by
  exact ⟨rfl, rfl, rfl, rfl, rfl⟩

/-- C5 (amended): every scroll operation shifts **all** planes of every
framebuffer cell uniformly and fills the vacated rows/columns with zeros
in all planes; the plane selector plays no role in any scroll. -/
theorem claim_C5_scroll_all_planes (s : Chirp8) (n r c q : Nat) :
    (((s.scroll_up n).display_buffer r c =
        if r < DISPLAY_HEIGHT -
            (if ¬ s.quirks.scroll_half_pixel ∧ ¬ s.high_resolution then n * 2 else n)
        then s.display_buffer
          (r + (if ¬ s.quirks.scroll_half_pixel ∧ ¬ s.high_resolution then n * 2 else n)) c
        else PIXEL_OFF) ∧
      ((s.scroll_down n).display_buffer r c =
        if r < (if ¬ s.quirks.scroll_half_pixel ∧ ¬ s.high_resolution then n * 2 else n)
        then PIXEL_OFF
        else s.display_buffer
          (r - (if ¬ s.quirks.scroll_half_pixel ∧ ¬ s.high_resolution then n * 2 else n)) c) ∧
      ((s.scroll_left n).display_buffer r c =
        if c < DISPLAY_WIDTH -
            (if ¬ s.quirks.scroll_half_pixel ∧ ¬ s.high_resolution then n * 2 else n)
        then s.display_buffer r
          (c + (if ¬ s.quirks.scroll_half_pixel ∧ ¬ s.high_resolution then n * 2 else n))
        else PIXEL_OFF) ∧
      ((s.scroll_right n).display_buffer r c =
        if c < (if ¬ s.quirks.scroll_half_pixel ∧ ¬ s.high_resolution then n * 2 else n)
        then PIXEL_OFF
        else s.display_buffer r
          (c - (if ¬ s.quirks.scroll_half_pixel ∧ ¬ s.high_resolution then n * 2 else n)))) ∧
    (({ s with plane_selection := q }.scroll_up n).display_buffer =
        (s.scroll_up n).display_buffer ∧
      ({ s with plane_selection := q }.scroll_down n).display_buffer =
        (s.scroll_down n).display_buffer ∧
      ({ s with plane_selection := q }.scroll_left n).display_buffer =
        (s.scroll_left n).display_buffer ∧
      ({ s with plane_selection := q }.scroll_right n).display_buffer =
        (s.scroll_right n).display_buffer) := by
  exact ⟨⟨rfl, rfl, rfl, rfl⟩, rfl, rfl, rfl, rfl⟩

/-! ## C6 — framebuffer cell encoding invariant -/

/-- The four repeat-bits-encoded byte values: the multiples of
`repeat_bits 1 DISPLAY_PLANES = 0x55` (the Klein four-group
`{0x00, 0x55, 0xAA, 0xFF}` under XOR). -/
def PixOk (v : Nat) : Prop := v = 0x00 ∨ v = 0x55 ∨ v = 0xAA ∨ v = 0xFF

instance : DecidablePred PixOk := fun v => by unfold PixOk; infer_instance

/-- Invariant: every framebuffer cell holds a repeat-bits-encoded value. -/
def BufInv (buf : Nat → Nat → Nat) : Prop := ∀ r c, PixOk (buf r c)

theorem pixok_zero : PixOk 0 := by decide

theorem pixok_xor {a m : Nat} (ha : PixOk a) (hm : PixOk m) : PixOk (a ^^^ m) := by
  rcases ha with rfl | rfl | rfl | rfl <;> rcases hm with rfl | rfl | rfl | rfl <;>
    decide

theorem pixok_and_not {a m : Nat} (ha : PixOk a) (hm : PixOk m) :
    PixOk (a &&& (m ^^^ 255)) := by
  rcases ha with rfl | rfl | rfl | rfl <;> rcases hm with rfl | rfl | rfl | rfl <;>
    decide

/-- The per-plane draw masks `repeat_bits (1 << plane) planes_count` are
repeat-bits-encoded for the plane counts the code uses (1 or 2). -/
theorem mask_pixok {planes_count plane : Nat}
    (h : planes_count = 1 ∨ planes_count = 2) (hp : plane < planes_count) :
    PixOk (repeat_bits (1 <<< plane) planes_count) := by
  rcases h with rfl | rfl
  · interval_cases plane
    · decide
  · interval_cases plane
    · decide
    · decide

theorem BufInv_updBuf {buf : Nat → Nat → Nat} {r c v : Nat}
    (hb : BufInv buf) (hv : PixOk v) : BufInv (updBuf buf r c v) := by
  intro r' c'
  unfold updBuf
  split
  · exact hv
  · exact hb r' c'

theorem spriteBits_inv (hires wrapping : Bool) (mask sprite x0 row scaler : Nat)
    (hm : PixOk mask) :
    ∀ fuel bit buf coll, BufInv buf →
      BufInv (spriteBits hires wrapping mask sprite x0 row scaler buf coll bit fuel).1 := by
  intro fuel
  induction fuel with
  | zero => intro bit buf coll hb; exact hb
  | succ m ih =>
    intro bit buf coll hb
    simp only [spriteBits]
    split
    · split
      · exact hb
      · have hpix : PixOk ((buf row ((x0 + bit) * scaler % DISPLAY_WIDTH)) ^^^
            (if sprite >>> (8 - 1 - bit) &&& 1 = 0 then 0x00 else mask)) := by
          refine pixok_xor (hb _ _) ?_
          split
          · exact pixok_zero
          · exact hm
        apply ih
        split
        · exact BufInv_updBuf
            (BufInv_updBuf (BufInv_updBuf (BufInv_updBuf hb hpix) hpix) hpix) hpix
        · exact BufInv_updBuf hb hpix
    · exact hb

theorem spriteLines_inv (hires wrapping collQuirk : Bool) (mask : Nat)
    (ram : Nat → Nat) (index height drawn x0 y0 scaler : Nat) (hm : PixOk mask) :
    ∀ fuel line buf regs, BufInv buf →
      BufInv (spriteLines hires wrapping collQuirk mask ram index height drawn
        x0 y0 scaler buf regs line fuel).1 := by
  intro fuel
  induction fuel with
  | zero => intro line buf regs hb; exact hb
  | succ m ih =>
    intro line buf regs hb
    simp only [spriteLines]
    split
    · split
      · split
        · exact ih _ _ _ hb
        · exact hb
      · exact ih _ _ _ (spriteBits_inv _ _ _ _ _ _ _ hm 8 0 _ _ hb)
    · exact hb

theorem spritePlanes_inv (hires wrapping collQuirk : Bool) (planes_count sel : Nat)
    (ram : Nat → Nat) (index height x0 y0 scaler : Nat)
    (hpc : planes_count = 1 ∨ planes_count = 2) :
    ∀ fuel plane drawn buf regs, BufInv buf →
      BufInv (spritePlanes hires wrapping collQuirk planes_count sel ram index
        height x0 y0 scaler plane drawn buf regs fuel).1 := by
  intro fuel
  induction fuel with
  | zero => intro plane drawn buf regs hb; exact hb
  | succ m ih =>
    intro plane drawn buf regs hb
    simp only [spritePlanes]
    split
    · rename_i h
      split
      · exact ih _ _ _ _ hb
      · exact ih _ _ _ _
          (spriteLines_inv _ _ _ _ _ _ _ _ _ _ _ (mask_pixok hpc h) height 0 _ _ hb)
    · exact hb

theorem display_sprite_inv (s : Chirp8) (coords : Nat × Nat) (height : Nat)
    (q : Bool) (hb : BufInv s.display_buffer) :
    BufInv (s.display_sprite coords height q).display_buffer := by
  unfold Chirp8.display_sprite
  simp only []
  refine spritePlanes_inv _ _ _ _ _ _ _ _ _ _ _ ?_ _ 0 0 _ _ hb
  split
  · right; rfl
  · left; rfl

theorem largeBits_inv (wrapping : Bool) (mask sprite xcoord halfbase row bc : Nat)
    (hm : PixOk mask) :
    ∀ fuel bit buf coll, BufInv buf →
      BufInv (largeBits wrapping mask sprite xcoord halfbase row bc buf coll
        bit fuel).1 := by
  intro fuel
  induction fuel with
  | zero => intro bit buf coll hb; exact hb
  | succ m ih =>
    intro bit buf coll hb
    simp only [largeBits]
    split
    · split
      · exact hb
      · apply ih
        refine BufInv_updBuf hb (pixok_xor (hb _ _) ?_)
        split
        · exact pixok_zero
        · exact hm
    · exact hb

theorem largeHalves_inv (wrapping : Bool) (mask : Nat) (ram : Nat → Nat)
    (index drawn line row xcoord : Nat) (hm : PixOk mask) :
    ∀ fuel half buf coll, BufInv buf →
      BufInv (largeHalves wrapping mask ram index drawn line row xcoord buf coll
        half fuel).1 := by
  intro fuel
  induction fuel with
  | zero => intro half buf coll hb; exact hb
  | succ m ih =>
    intro half buf coll hb
    simp only [largeHalves]
    split
    · exact ih _ _ _ (largeBits_inv _ _ _ _ _ _ _ hm _ 0 _ _ hb)
    · exact hb

theorem largeLines_inv (wrapping collQuirk : Bool) (mask : Nat) (ram : Nat → Nat)
    (index drawn xcoord ycoord : Nat) (hm : PixOk mask) :
    ∀ fuel line buf regs, BufInv buf →
      BufInv (largeLines wrapping collQuirk mask ram index drawn xcoord ycoord
        buf regs line fuel).1 := by
  intro fuel
  induction fuel with
  | zero => intro line buf regs hb; exact hb
  | succ m ih =>
    intro line buf regs hb
    simp only [largeLines]
    split
    · split
      · split
        · exact ih _ _ _ hb
        · exact hb
      · exact ih _ _ _ (largeHalves_inv _ _ _ _ _ _ _ _ hm 2 0 _ _ hb)
    · exact hb

theorem largePlanes_inv (wrapping collQuirk : Bool) (planes_count sel : Nat)
    (ram : Nat → Nat) (index xcoord ycoord : Nat)
    (hpc : planes_count = 1 ∨ planes_count = 2) :
    ∀ fuel plane drawn buf regs, BufInv buf →
      BufInv (largePlanes wrapping collQuirk planes_count sel ram index xcoord
        ycoord plane drawn buf regs fuel).1 := by
  intro fuel
  induction fuel with
  | zero => intro plane drawn buf regs hb; exact hb
  | succ m ih =>
    intro plane drawn buf regs hb
    simp only [largePlanes]
    split
    · rename_i h
      split
      · exact ih _ _ _ _ hb
      · exact ih _ _ _ _
          (largeLines_inv _ _ _ _ _ _ _ _ (mask_pixok hpc h) 16 0 _ _ hb)
    · exact hb

theorem display_large_sprite_inv (s : Chirp8) (coords : Nat × Nat) (q : Bool)
    (hb : BufInv s.display_buffer) :
    BufInv (s.display_large_sprite coords q).display_buffer := by
  unfold Chirp8.display_large_sprite
  simp only []
  refine largePlanes_inv _ _ _ _ _ _ _ _ ?_ _ 0 0 _ _ hb
  split
  · right; rfl
  · left; rfl

theorem handle_display_inv (s : Chirp8) (coords : Nat × Nat) (height : Nat)
    (hb : BufInv s.display_buffer) :
    BufInv (s.handle_display_instruction coords height).display_buffer := by
  unfold Chirp8.handle_display_instruction
  simp only []
  have hsat : ∀ (t : Chirp8) (c : Prop) (h : Decidable c),
      (if c then { t with registers := upd t.registers FLAG_REGISTER_INDEX 1 }
       else t).display_buffer = t.display_buffer := by
    intro t c h
    split <;> rfl
  rw [hsat]
  split <;> split <;>
    first
    | exact display_large_sprite_inv _ _ _ hb
    | exact display_sprite_inv _ _ _ _ hb

theorem clear_display_inv (s : Chirp8) : BufInv s.clear_display.display_buffer := by
  intro r c
  exact pixok_zero

theorem clearPlanesLoop_inv (sel : Nat) :
    ∀ fuel plane buf, BufInv buf →
      BufInv (clearPlanesLoop sel buf plane fuel) := by
  intro fuel
  induction fuel with
  | zero => intro plane buf hb; exact hb
  | succ m ih =>
    intro plane buf hb
    simp only [clearPlanesLoop]
    split
    · rename_i h
      apply ih
      split
      · intro r c
        exact pixok_and_not (hb r c) (mask_pixok (Or.inr rfl) h)
      · exact hb
    · exact hb

theorem clear_planes_inv (s : Chirp8) (hb : BufInv s.display_buffer) :
    BufInv s.clear_planes.display_buffer := by
  unfold Chirp8.clear_planes
  split
  · exact clear_display_inv s
  · exact clearPlanesLoop_inv _ _ 0 _ hb

theorem scroll_up_inv (s : Chirp8) (n : Nat) (hb : BufInv s.display_buffer) :
    BufInv (s.scroll_up n).display_buffer := by
  intro r c
  unfold Chirp8.scroll_up
  simp only []
  split <;> split <;> first | exact hb _ _ | exact pixok_zero

theorem scroll_down_inv (s : Chirp8) (n : Nat) (hb : BufInv s.display_buffer) :
    BufInv (s.scroll_down n).display_buffer := by
  intro r c
  unfold Chirp8.scroll_down
  simp only []
  split <;> split <;> first | exact hb _ _ | exact pixok_zero

theorem scroll_left_inv (s : Chirp8) (n : Nat) (hb : BufInv s.display_buffer) :
    BufInv (s.scroll_left n).display_buffer := by
  intro r c
  unfold Chirp8.scroll_left
  simp only []
  split <;> split <;> first | exact hb _ _ | exact pixok_zero

theorem scroll_right_inv (s : Chirp8) (n : Nat) (hb : BufInv s.display_buffer) :
    BufInv (s.scroll_right n).display_buffer := by
  intro r c
  unfold Chirp8.scroll_right
  simp only []
  split <;> split <;> first | exact hb _ _ | exact pixok_zero

theorem reset_inv (s : Chirp8) : BufInv s.reset.display_buffer := by
  intro r c
  exact pixok_zero

theorem op_fx55_display (s : Chirp8) (x : Nat) :
    (s.op_fx55 x).display_buffer = s.display_buffer := by
  simp only [Chirp8.op_fx55]
  split <;> rfl

theorem op_fx65_display (s : Chirp8) (x : Nat) :
    (s.op_fx65 x).display_buffer = s.display_buffer := by
  simp only [Chirp8.op_fx65]
  split <;> rfl

theorem op_fx75_display (s : Chirp8) (x : Nat) :
    (s.op_fx75 x).display_buffer = s.display_buffer := rfl

theorem op_fx85_display (s : Chirp8) (x : Nat) :
    (s.op_fx85 x).display_buffer = s.display_buffer := rfl

theorem op_5xy2_display (s : Chirp8) (x y : Nat) (s' : Chirp8)
    (h : s.op_5xy2 x y = some s') : s'.display_buffer = s.display_buffer := by
  unfold Chirp8.op_5xy2 at h
  simp only [] at h
  split_ifs at h <;>
    first
      | exact Option.noConfusion h
      | (injection h with h; subst h; rfl)

theorem op_5xy3_display (s : Chirp8) (x y : Nat) (s' : Chirp8)
    (h : s.op_5xy3 x y = some s') : s'.display_buffer = s.display_buffer := by
  unfold Chirp8.op_5xy3 at h
  simp only [] at h
  split_ifs at h <;>
    first
      | exact Option.noConfusion h
      | (injection h with h; subst h; rfl)

theorem skip_next_instruction_display (s : Chirp8) (s' : Chirp8)
    (h : s.skip_next_instruction = some s') :
    s'.display_buffer = s.display_buffer := by
  unfold Chirp8.skip_next_instruction at h
  simp only [] at h
  split_ifs at h
  · split at h
    · exact Option.noConfusion h
    · injection h with h; subst h; rfl
  · injection h with h; subst h; rfl

theorem op_fxnn_display (s : Chirp8) (x nn : Nat) (s' : Chirp8)
    (h : s.op_fxnn x nn = some s') : s'.display_buffer = s.display_buffer := by
  unfold Chirp8.op_fxnn at h
  repeat' (split at h)
  all_goals try (simp only [] at h)
  all_goals repeat' (split at h)
  all_goals first
    | (rw [Option.some_inj] at h; subst h;
       first
         | exact op_fx55_display s x
         | exact op_fx65_display s x
         | exact op_fx75_display s x
         | exact op_fx85_display s x
         | rfl)
    | exact Option.noConfusion h

theorem op_zero_inv (s : Chirp8) (nn n : Nat) (s' : Chirp8)
    (h : s.op_zero nn n = some s') (hb : BufInv s.display_buffer) :
    BufInv s'.display_buffer := by
  unfold Chirp8.op_zero at h
  repeat' (split at h)
  all_goals try (simp only [] at h)
  all_goals repeat' (split at h)
  all_goals first
    | (rw [Option.some_inj] at h; subst h;
       first
         | exact hb
         | exact clear_display_inv _
         | exact clear_planes_inv _ hb
         | exact reset_inv _
         | exact scroll_up_inv _ _ hb
         | exact scroll_down_inv _ _ hb
         | exact scroll_left_inv _ _ hb
         | exact scroll_right_inv _ _ hb)
    | exact Option.noConfusion h

theorem execute_inv (s : Chirp8) (instr : Nat) (s' : Chirp8)
    (h : s.execute instr = some s') (hb : BufInv s.display_buffer) :
    BufInv s'.display_buffer := by
  unfold Chirp8.execute at h
  repeat' (split at h)
  all_goals try (simp only [] at h)
  all_goals repeat' (split at h)
  all_goals first
    | exact op_zero_inv _ _ _ _ h hb
    | (rw [show s'.display_buffer = s.display_buffer from
        skip_next_instruction_display _ _ h]; exact hb)
    | (rw [show s'.display_buffer = s.display_buffer from
        op_5xy2_display _ _ _ _ h]; exact hb)
    | (rw [show s'.display_buffer = s.display_buffer from
        op_5xy3_display _ _ _ _ h]; exact hb)
    | (rw [show s'.display_buffer = s.display_buffer from
        op_fxnn_display _ _ _ _ h]; exact hb)
    | (rw [Option.some_inj] at h; subst h;
       first
         | exact hb
         | exact handle_display_inv _ _ _ hb)
    | exact Option.noConfusion h

theorem step_timers_display (s : Chirp8) :
    s.step_timers.display_buffer = s.display_buffer := by
  unfold Chirp8.step_timers
  simp only []
  split <;> rfl

theorem step_inv (s s' : Chirp8) (h : s.step = some s')
    (hb : BufInv s.display_buffer) : BufInv s'.display_buffer := by
  unfold Chirp8.step at h
  split at h
  · exact Option.noConfusion h
  · simp only [] at h
    split at h
    · exact Option.noConfusion h
    · rename_i t hex
      rw [Option.some_inj] at h
      subst h
      show BufInv t.step_timers.display_buffer
      rw [step_timers_display]
      exact execute_inv _ _ _ hex hb

theorem key_press_display (s : Chirp8) (k : Nat) :
    (s.key_press k).display_buffer = s.display_buffer := by
  unfold Chirp8.key_press; split <;> rfl

theorem key_release_display (s : Chirp8) (k : Nat) :
    (s.key_release k).display_buffer = s.display_buffer := by
  unfold Chirp8.key_release; split <;> rfl

theorem key_set_display (s : Chirp8) (k : Nat) (p : Bool) :
    (s.key_set k p).display_buffer = s.display_buffer := by
  unfold Chirp8.key_set; split <;> rfl

theorem load_rom_display (s : Chirp8) (rom : List Nat) :
    (s.load_rom rom).2.display_buffer = s.display_buffer := by
  unfold Chirp8.load_rom; split <;> rfl

theorem runEvents_inv :
    ∀ (evs : List Event) (s s' : Chirp8), runEvents s evs = some s' →
      BufInv s.display_buffer → BufInv s'.display_buffer := by
  intro evs
  induction evs with
  | nil =>
    intro s s' h hb
    simp only [runEvents] at h
    injection h with h; subst h
    exact hb
  | cons e rest ih =>
    intro s s' h hb
    cases e with
    | tick =>
      simp only [runEvents] at h
      split at h
      · exact Option.noConfusion h
      · rename_i t hstep
        exact ih _ _ h (step_inv _ _ hstep hb)
    | keyPress k =>
      simp only [runEvents] at h
      exact ih _ _ h (by rw [key_press_display]; exact hb)
    | keyRelease k =>
      simp only [runEvents] at h
      exact ih _ _ h (by rw [key_release_display]; exact hb)
    | keySet k p =>
      simp only [runEvents] at h
      exact ih _ _ h (by rw [key_set_display]; exact hb)
    | rom bytes =>
      simp only [runEvents] at h
      exact ih _ _ h (by rw [load_rom_display]; exact hb)

/-- C6 (counterexample): on XO-Chip, selecting plane 2 (`F201`) and drawing
(`D011`, sprite `0xF0` from the font at `I = 0`) reaches — from a fresh VM —
a state whose cell (0,0) holds `0xAA`, which has bits outside the mask
`repeat_bits 1 DISPLAY_PLANES = 0x55`: the claim's mask is wrong for
plane-1 drawing. -/
theorem claim_C6_counterexample :
    ((runEvents (Chirp8.mk_new Chirp8Mode.xoChip)
        [Event.rom [0xF2, 0x01, 0xD0, 0x11], Event.tick, Event.tick]).map
      fun s => s.display_buffer 0 0) = some 0xAA ∧
    0xAA &&& (255 ^^^ repeat_bits 1 DISPLAY_PLANES) ≠ 0 := by
  refine ⟨by decide, by decide⟩

/-- C6 (amended): in every state reachable from a fresh VM through any
sequence of public host events (steps, key events, ROM loads), every
framebuffer cell value is a **multiple** of `repeat_bits 1 DISPLAY_PLANES`
(= `0x55`), i.e. one of `0x00, 0x55, 0xAA, 0xFF` — the repeat-bits
encoding; for single-plane dialects only `0x00` and `0xFF` ever occur,
but on the two-plane XO-Chip plane 1 contributes the `0xAA` bits, so the
claim's mask `0x55` must be replaced by this multiple-of-`0x55` set. -/
theorem claim_C6_cells_repeat_bits_encoded (mode : Chirp8Mode)
    (evs : List Event) (s' : Chirp8)
    (h : runEvents (Chirp8.mk_new mode) evs = some s') (r c : Nat) :
    ∃ k, k ≤ 3 ∧ s'.display_buffer r c = k * repeat_bits 1 DISPLAY_PLANES := by
  have hb : BufInv s'.display_buffer :=
    runEvents_inv evs _ _ h (fun _ _ => pixok_zero)
  rcases hb r c with h0 | h0 | h0 | h0
  · exact ⟨0, by omega, by rw [h0]; decide⟩
  · exact ⟨1, by omega, by rw [h0]; decide⟩
  · exact ⟨2, by omega, by rw [h0]; decide⟩
  · exact ⟨3, by omega, by rw [h0]; decide⟩

/-- C6 witness: the amended invariant applied to the fresh XO-Chip VM
(the empty event sequence). -/
theorem claim_C6_cells_repeat_bits_encoded_witness :
    ∃ k, k ≤ 3 ∧ (Chirp8.mk_new Chirp8Mode.xoChip).display_buffer 0 0 =
      k * repeat_bits 1 DISPLAY_PLANES :=
  claim_C6_cells_repeat_bits_encoded Chirp8Mode.xoChip [] _ rfl 0 0

/-! ## C7 — drawing the same sprite twice -/

/-- `decide (b = true)` (the `Prop → Bool` round trip that arises from
coercions at the `spritePlanes` call sites) is `b` itself. -/
theorem decide_bool_eq_true (b : Bool) : decide (b = true) = b := by
  cases b <;> rfl

/-- XOR footprint on column `c` of the `bit` loop of `display_sprite` in
high resolution: the value XORed into the drawn row by bits `bit, …`
(`fuel` iterations).  It depends on the sprite byte and the geometry but
not on the frame buffer: in high resolution the bit loop is a pure XOR. -/
def bitsXor (wrapping : Bool) (mask sprite x0 : Nat) (bit : Nat) :
    (fuel : Nat) → (c : Nat) → Nat
  | 0 => fun _ => 0
  | fuel + 1 => fun c =>
    if bit < 8 then
      if x0 + bit ≥ DISPLAY_WIDTH ∧ ¬ wrapping then 0
      else
        (if (x0 + bit) % DISPLAY_WIDTH = c then
          (if (sprite >>> (8 - 1 - bit)) &&& 1 = 0 then 0x00 else mask)
         else 0) ^^^ bitsXor wrapping mask sprite x0 (bit + 1) fuel c
    else 0

/-- In high resolution (`scaler = 1`, no 2×2 block copies) the bit loop
XORs `bitsXor` into the drawn row and leaves every other row unchanged. -/
theorem spriteBits_hires_xor (wrapping : Bool) (mask sprite x0 row : Nat) :
    ∀ (fuel bit : Nat) (buf : Nat → Nat → Nat) (coll : Bool) (r c : Nat),
      (spriteBits true wrapping mask sprite x0 row 1 buf coll bit fuel).1 r c =
        (if r = row then buf r c ^^^ bitsXor wrapping mask sprite x0 bit fuel c
         else buf r c) := by
  intro fuel
  induction fuel with
  | zero =>
    intro bit buf coll r c
    simp only [spriteBits, bitsXor]
    split <;> simp
  | succ fuel ih =>
    intro bit buf coll r c
    simp only [spriteBits, bitsXor, Nat.mul_one]
    by_cases h8 : bit < 8
    · simp only [if_pos h8]
      by_cases hclip : x0 + bit ≥ DISPLAY_WIDTH ∧ ¬ wrapping
      · simp only [if_pos hclip]
        split <;> simp
      · simp only [if_neg hclip]
        rw [ih]
        by_cases hr : r = row
        · subst hr
          by_cases hc : (x0 + bit) % DISPLAY_WIDTH = c
          · subst hc
            simp [updBuf, Nat.xor_assoc]
          · simp [updBuf, hc, Ne.symm hc]
        · simp [updBuf, hr]
    · simp only [if_neg h8]
      split <;> simp


/-- XOR footprint of the `line` loop of `display_sprite` in high
resolution (buffer-independent). -/
def linesXor (wrapping collQuirk : Bool) (mask : Nat) (ram : Nat → Nat)
    (index height drawn x0 y0 : Nat) (line : Nat) :
    (fuel : Nat) → (r c : Nat) → Nat
  | 0 => fun _ _ => 0
  | fuel + 1 => fun r c =>
    if line < height then
      let sprite := ram (((index + height * drawn + line) % U16_MOD) &&& RAM_MASK)
      if y0 + line ≥ DISPLAY_HEIGHT ∧ ¬ wrapping then
        if collQuirk then
          linesXor wrapping collQuirk mask ram index height drawn x0 y0 (line + 1)
            fuel r c
        else 0
      else
        (if r = (y0 + line) % DISPLAY_HEIGHT then bitsXor wrapping mask sprite x0 0 8 c
         else 0) ^^^
          linesXor wrapping collQuirk mask ram index height drawn x0 y0 (line + 1)
            fuel r c
    else 0

/-- In high resolution the line loop of `display_sprite` is a pure XOR of
`linesXor` into the buffer. -/
theorem spriteLines_hires_xor (wrapping collQuirk : Bool) (mask : Nat)
    (ram : Nat → Nat) (index height drawn x0 y0 : Nat) :
    ∀ (fuel line : Nat) (buf : Nat → Nat → Nat) (regs : Nat → Nat) (r c : Nat),
      (spriteLines true wrapping collQuirk mask ram index height drawn x0 y0 1
          buf regs line fuel).1 r c =
        buf r c ^^^
          linesXor wrapping collQuirk mask ram index height drawn x0 y0 line fuel
            r c := by
  intro fuel
  induction fuel with
  | zero => intro line buf regs r c; simp [spriteLines, linesXor]
  | succ fuel ih =>
    intro line buf regs r c
    simp only [spriteLines, linesXor, Nat.mul_one]
    by_cases hl : line < height
    · simp only [if_pos hl]
      by_cases hclip : y0 + line ≥ DISPLAY_HEIGHT ∧ ¬ wrapping
      · simp only [if_pos hclip]
        by_cases hq : collQuirk = true
        · simp only [if_pos hq, ih]
        · simp only [if_neg hq]
          simp
      · simp only [if_neg hclip]
        rw [ih, spriteBits_hires_xor]
        by_cases hr : r = (y0 + line) % DISPLAY_HEIGHT
        · simp [hr, Nat.xor_assoc]
        · simp [hr]
    · simp only [if_neg hl]
      simp

/-- XOR footprint of the `plane` loop of `display_sprite` in high
resolution (buffer-independent). -/
def planesXor (wrapping collQuirk : Bool) (planes_count sel : Nat)
    (ram : Nat → Nat) (index height x0 y0 : Nat) (plane drawn : Nat) :
    (fuel : Nat) → (r c : Nat) → Nat
  | 0 => fun _ _ => 0
  | fuel + 1 => fun r c =>
    if plane < planes_count then
      let pixel_bits_mask := repeat_bits (1 <<< plane) planes_count
      if sel &&& pixel_bits_mask = 0 then
        planesXor wrapping collQuirk planes_count sel ram index height x0 y0
          (plane + 1) drawn fuel r c
      else
        linesXor wrapping collQuirk pixel_bits_mask ram index height drawn x0 y0 0
          height r c ^^^
          planesXor wrapping collQuirk planes_count sel ram index height x0 y0
            (plane + 1) (drawn + 1) fuel r c
    else 0

/-- In high resolution the plane loop of `display_sprite` is a pure XOR of
`planesXor` into the buffer. -/
theorem spritePlanes_hires_xor (wrapping collQuirk : Bool) (planes_count sel : Nat)
    (ram : Nat → Nat) (index height x0 y0 : Nat) :
    ∀ (fuel plane drawn : Nat) (buf : Nat → Nat → Nat) (regs : Nat → Nat)
        (r c : Nat),
      (spritePlanes true wrapping collQuirk planes_count sel ram index height x0 y0
          1 plane drawn buf regs fuel).1 r c =
        buf r c ^^^
          planesXor wrapping collQuirk planes_count sel ram index height x0 y0
            plane drawn fuel r c := by
  intro fuel
  induction fuel with
  | zero => intro plane drawn buf regs r c; simp [spritePlanes, planesXor]
  | succ fuel ih =>
    intro plane drawn buf regs r c
    simp only [spritePlanes, planesXor]
    by_cases hp : plane < planes_count
    · simp only [if_pos hp]
      by_cases hsel : sel &&& repeat_bits (1 <<< plane) planes_count = 0
      · simp only [if_pos hsel, ih]
      · simp only [if_neg hsel]
        rw [ih, spriteLines_hires_xor]
        exact Nat.xor_assoc _ _ _
    · simp only [if_neg hp]
      simp

/-- XOR footprint on column `c` of the `bit` loop of
`display_large_sprite` (buffer-independent; the large-sprite path never
scales, in either resolution). -/
def largeBitsXor (wrapping : Bool) (mask sprite xcoord halfbase bc : Nat)
    (bit : Nat) : (fuel : Nat) → (c : Nat) → Nat
  | 0 => fun _ => 0
  | fuel + 1 => fun c =>
    if bit < bc then
      if xcoord % DISPLAY_WIDTH + halfbase + bit ≥ DISPLAY_WIDTH ∧ ¬ wrapping then 0
      else
        (if (xcoord % DISPLAY_WIDTH + halfbase + bit) % DISPLAY_WIDTH = c then
          (if (sprite >>> (8 - 1 - bit)) &&& 1 = 0 then 0x00 else mask)
         else 0) ^^^ largeBitsXor wrapping mask sprite xcoord halfbase bc (bit + 1)
          fuel c
    else 0

/-- The bit loop of `display_large_sprite` XORs `largeBitsXor` into the
drawn row and leaves every other row unchanged. -/
theorem largeBits_xor (wrapping : Bool) (mask sprite xcoord halfbase row bc : Nat) :
    ∀ (fuel bit : Nat) (buf : Nat → Nat → Nat) (coll : Bool) (r c : Nat),
      (largeBits wrapping mask sprite xcoord halfbase row bc buf coll bit fuel).1
          r c =
        (if r = row then
          buf r c ^^^ largeBitsXor wrapping mask sprite xcoord halfbase bc bit fuel c
         else buf r c) := by
  intro fuel
  induction fuel with
  | zero =>
    intro bit buf coll r c
    simp only [largeBits, largeBitsXor]
    split <;> simp
  | succ fuel ih =>
    intro bit buf coll r c
    simp only [largeBits, largeBitsXor]
    by_cases h8 : bit < bc
    · simp only [if_pos h8]
      by_cases hclip : xcoord % DISPLAY_WIDTH + halfbase + bit ≥ DISPLAY_WIDTH ∧
          ¬ wrapping
      · simp only [if_pos hclip]
        split <;> simp
      · simp only [if_neg hclip]
        rw [ih]
        by_cases hr : r = row
        · subst hr
          by_cases hc : (xcoord % DISPLAY_WIDTH + halfbase + bit) % DISPLAY_WIDTH = c
          · subst hc
            simp [updBuf, Nat.xor_assoc]
          · simp [updBuf, hc, Ne.symm hc]
        · simp [updBuf, hr]
    · simp only [if_neg h8]
      split <;> simp

/-- XOR footprint on column `c` of the `half` loop of
`display_large_sprite` (buffer-independent). -/
def largeHalvesXor (wrapping : Bool) (mask : Nat) (ram : Nat → Nat)
    (index drawn line xcoord : Nat) (half : Nat) : (fuel : Nat) → (c : Nat) → Nat
  | 0 => fun _ => 0
  | fuel + 1 => fun c =>
    if half < 2 then
      let sprite := ram (((index + 2 * 16 * drawn + 2 * line + half) % U16_MOD) &&&
        RAM_MASK)
      largeBitsXor wrapping mask sprite xcoord (half * 8) (min 8 (16 - half * 8)) 0
        (min 8 (16 - half * 8)) c ^^^
        largeHalvesXor wrapping mask ram index drawn line xcoord (half + 1) fuel c
    else 0

/-- The half loop of `display_large_sprite` XORs `largeHalvesXor` into the
drawn row and leaves every other row unchanged. -/
theorem largeHalves_xor (wrapping : Bool) (mask : Nat) (ram : Nat → Nat)
    (index drawn line row xcoord : Nat) :
    ∀ (fuel half : Nat) (buf : Nat → Nat → Nat) (coll : Bool) (r c : Nat),
      (largeHalves wrapping mask ram index drawn line row xcoord buf coll half
          fuel).1 r c =
        (if r = row then
          buf r c ^^^ largeHalvesXor wrapping mask ram index drawn line xcoord half
            fuel c
         else buf r c) := by
  intro fuel
  induction fuel with
  | zero =>
    intro half buf coll r c
    simp only [largeHalves, largeHalvesXor]
    split <;> simp
  | succ fuel ih =>
    intro half buf coll r c
    simp only [largeHalves, largeHalvesXor]
    by_cases hh : half < 2
    · simp only [if_pos hh]
      rw [ih, largeBits_xor]
      by_cases hr : r = row
      · simp [hr, Nat.xor_assoc]
      · simp [hr]
    · simp only [if_neg hh]
      split <;> simp

/-- XOR footprint of the `line` loop of `display_large_sprite`
(buffer-independent). -/
def largeLinesXor (wrapping collQuirk : Bool) (mask : Nat) (ram : Nat → Nat)
    (index drawn xcoord ycoord : Nat) (line : Nat) :
    (fuel : Nat) → (r c : Nat) → Nat
  | 0 => fun _ _ => 0
  | fuel + 1 => fun r c =>
    if line < 16 then
      if ycoord % DISPLAY_HEIGHT + line ≥ DISPLAY_HEIGHT ∧ ¬ wrapping then
        if collQuirk then
          largeLinesXor wrapping collQuirk mask ram index drawn xcoord ycoord
            (line + 1) fuel r c
        else 0
      else
        (if r = (ycoord % DISPLAY_HEIGHT + line) % DISPLAY_HEIGHT then
          largeHalvesXor wrapping mask ram index drawn line xcoord 0 2 c
         else 0) ^^^
          largeLinesXor wrapping collQuirk mask ram index drawn xcoord ycoord
            (line + 1) fuel r c
    else 0

/-- The line loop of `display_large_sprite` is a pure XOR of
`largeLinesXor` into the buffer. -/
theorem largeLines_xor (wrapping collQuirk : Bool) (mask : Nat) (ram : Nat → Nat)
    (index drawn xcoord ycoord : Nat) :
    ∀ (fuel line : Nat) (buf : Nat → Nat → Nat) (regs : Nat → Nat) (r c : Nat),
      (largeLines wrapping collQuirk mask ram index drawn xcoord ycoord buf regs
          line fuel).1 r c =
        buf r c ^^^
          largeLinesXor wrapping collQuirk mask ram index drawn xcoord ycoord line
            fuel r c := by
  intro fuel
  induction fuel with
  | zero => intro line buf regs r c; simp [largeLines, largeLinesXor]
  | succ fuel ih =>
    intro line buf regs r c
    simp only [largeLines, largeLinesXor]
    by_cases hl : line < 16
    · simp only [if_pos hl]
      by_cases hclip : ycoord % DISPLAY_HEIGHT + line ≥ DISPLAY_HEIGHT ∧ ¬ wrapping
      · simp only [if_pos hclip]
        by_cases hq : collQuirk = true
        · simp only [if_pos hq, ih]
        · simp only [if_neg hq]
          simp
      · simp only [if_neg hclip]
        rw [ih, largeHalves_xor]
        by_cases hr : r = (ycoord + line) % DISPLAY_HEIGHT
        · simp [hr, Nat.xor_assoc]
        · simp [hr]
    · simp only [if_neg hl]
      simp

/-- XOR footprint of the `plane` loop of `display_large_sprite`
(buffer-independent). -/
def largePlanesXor (wrapping collQuirk : Bool) (planes_count sel : Nat)
    (ram : Nat → Nat) (index xcoord ycoord : Nat) (plane drawn : Nat) :
    (fuel : Nat) → (r c : Nat) → Nat
  | 0 => fun _ _ => 0
  | fuel + 1 => fun r c =>
    if plane < planes_count then
      let pixel_bits_mask := repeat_bits (1 <<< plane) planes_count
      if sel &&& pixel_bits_mask = 0 then
        largePlanesXor wrapping collQuirk planes_count sel ram index xcoord ycoord
          (plane + 1) drawn fuel r c
      else
        largeLinesXor wrapping collQuirk pixel_bits_mask ram index drawn xcoord
          ycoord 0 16 r c ^^^
          largePlanesXor wrapping collQuirk planes_count sel ram index xcoord ycoord
            (plane + 1) (drawn + 1) fuel r c
    else 0

/-- The plane loop of `display_large_sprite` is a pure XOR of
`largePlanesXor` into the buffer. -/
theorem largePlanes_xor (wrapping collQuirk : Bool) (planes_count sel : Nat)
    (ram : Nat → Nat) (index xcoord ycoord : Nat) :
    ∀ (fuel plane drawn : Nat) (buf : Nat → Nat → Nat) (regs : Nat → Nat)
        (r c : Nat),
      (largePlanes wrapping collQuirk planes_count sel ram index xcoord ycoord
          plane drawn buf regs fuel).1 r c =
        buf r c ^^^
          largePlanesXor wrapping collQuirk planes_count sel ram index xcoord ycoord
            plane drawn fuel r c := by
  intro fuel
  induction fuel with
  | zero => intro plane drawn buf regs r c; simp [largePlanes, largePlanesXor]
  | succ fuel ih =>
    intro plane drawn buf regs r c
    simp only [largePlanes, largePlanesXor]
    by_cases hp : plane < planes_count
    · simp only [if_pos hp]
      by_cases hsel : sel &&& repeat_bits (1 <<< plane) planes_count = 0
      · simp only [if_pos hsel, ih]
      · simp only [if_neg hsel]
        rw [ih, largeLines_xor]
        exact Nat.xor_assoc _ _ _
    · simp only [if_neg hp]
      simp


/-- Updating a cell and reading it back. -/
theorem upd_same (f : Nat → Nat) (i v : Nat) : upd f i v i = v := by
  simp [upd]

/-- `display_sprite` in high resolution: the buffer effect is the pure XOR
footprint `planesXor`; the coordinates are reduced modulo the full
display size and the scaler is 1. -/
theorem display_sprite_xor (t : Chirp8) (coords : Nat × Nat) (height : Nat)
    (q : Bool) (hr : t.high_resolution = true) (r c : Nat) :
    (t.display_sprite coords height q).display_buffer r c =
      t.display_buffer r c ^^^
        planesXor (! t.quirks.clip_sprites_hires) q
          (if t.quirks.use_several_planes then DISPLAY_PLANES else 1)
          t.plane_selection t.ram t.index height (coords.1 % DISPLAY_WIDTH)
          (coords.2 % DISPLAY_HEIGHT) 0 0
          (if t.quirks.use_several_planes then DISPLAY_PLANES else 1) r c := by
  unfold Chirp8.display_sprite
  rw [hr]
  simp [Chirp8.withDisplay, Chirp8.withRegisters, decide_bool_eq_true]
  rw [spritePlanes_hires_xor]

/-- `display_large_sprite` (either resolution): the buffer effect is the
pure XOR footprint `largePlanesXor`. -/
theorem display_large_sprite_xor (t : Chirp8) (coords : Nat × Nat) (q : Bool)
    (r c : Nat) :
    (t.display_large_sprite coords q).display_buffer r c =
      t.display_buffer r c ^^^
        largePlanesXor
          (if t.high_resolution then ! t.quirks.clip_sprites_hires
           else ! t.quirks.clip_sprites_lores) q
          (if t.quirks.use_several_planes then DISPLAY_PLANES else 1)
          t.plane_selection t.ram t.index coords.1 coords.2 0 0
          (if t.quirks.use_several_planes then DISPLAY_PLANES else 1) r c := by
  unfold Chirp8.display_large_sprite
  simp [Chirp8.withDisplay, Chirp8.withRegisters, decide_bool_eq_true]
  rw [largePlanes_xor]

/-- The line loop bumps `VF` at most once per iteration. -/
theorem spriteLines_flag_le (hires wrapping collQuirk : Bool) (mask : Nat)
    (ram : Nat → Nat) (index height drawn x0 y0 scaler : Nat) :
    ∀ (fuel line : Nat) (buf : Nat → Nat → Nat) (regs : Nat → Nat),
      (spriteLines hires wrapping collQuirk mask ram index height drawn x0 y0
          scaler buf regs line fuel).2 FLAG_REGISTER_INDEX ≤
        regs FLAG_REGISTER_INDEX + fuel := by
  intro fuel
  induction fuel with
  | zero => intro line buf regs; exact Nat.le_add_right _ _
  | succ fuel ih =>
    intro line buf regs
    simp only [spriteLines]
    split
    · split
      · split
        · refine le_trans (ih _ _ _) ?_
          rw [upd_same]; omega
        · exact Nat.le_add_right _ _
      · refine le_trans (ih _ _ _) ?_
        split
        · rw [upd_same]; omega
        · omega
    · exact Nat.le_add_right _ _

/-- The plane loop bumps `VF` at most `height` per drawn plane. -/
theorem spritePlanes_flag_le (hires wrapping collQuirk : Bool)
    (planes_count sel : Nat) (ram : Nat → Nat) (index height x0 y0 scaler : Nat) :
    ∀ (fuel plane drawn : Nat) (buf : Nat → Nat → Nat) (regs : Nat → Nat),
      (spritePlanes hires wrapping collQuirk planes_count sel ram index height x0
          y0 scaler plane drawn buf regs fuel).2 FLAG_REGISTER_INDEX ≤
        regs FLAG_REGISTER_INDEX + fuel * height := by
  intro fuel
  induction fuel with
  | zero => intro plane drawn buf regs; exact Nat.le_add_right _ _
  | succ fuel ih =>
    intro plane drawn buf regs
    simp only [spritePlanes]
    split
    · split
      · refine le_trans (ih _ _ _ _) ?_
        rw [Nat.succ_mul]
        exact Nat.add_le_add_left (Nat.le_add_right _ _) _
      · refine le_trans (ih _ _ _ _) ?_
        refine le_trans (Nat.add_le_add_right
          (spriteLines_flag_le _ _ _ _ _ _ _ _ _ _ _ height 0 _ _)
          (fuel * height)) ?_
        rw [Nat.succ_mul]
        exact le_of_eq (by ring)
    · exact Nat.le_add_right _ _

/-- The large-sprite line loop bumps `VF` at most once per iteration. -/
theorem largeLines_flag_le (wrapping collQuirk : Bool) (mask : Nat)
    (ram : Nat → Nat) (index drawn xcoord ycoord : Nat) :
    ∀ (fuel line : Nat) (buf : Nat → Nat → Nat) (regs : Nat → Nat),
      (largeLines wrapping collQuirk mask ram index drawn xcoord ycoord buf regs
          line fuel).2 FLAG_REGISTER_INDEX ≤
        regs FLAG_REGISTER_INDEX + fuel := by
  intro fuel
  induction fuel with
  | zero => intro line buf regs; exact Nat.le_add_right _ _
  | succ fuel ih =>
    intro line buf regs
    simp only [largeLines]
    split
    · split
      · split
        · refine le_trans (ih _ _ _) ?_
          rw [upd_same]; omega
        · exact Nat.le_add_right _ _
      · refine le_trans (ih _ _ _) ?_
        split
        · rw [upd_same]; omega
        · omega
    · exact Nat.le_add_right _ _

/-- The large-sprite plane loop bumps `VF` at most 16 per drawn plane. -/
theorem largePlanes_flag_le (wrapping collQuirk : Bool) (planes_count sel : Nat)
    (ram : Nat → Nat) (index xcoord ycoord : Nat) :
    ∀ (fuel plane drawn : Nat) (buf : Nat → Nat → Nat) (regs : Nat → Nat),
      (largePlanes wrapping collQuirk planes_count sel ram index xcoord ycoord
          plane drawn buf regs fuel).2 FLAG_REGISTER_INDEX ≤
        regs FLAG_REGISTER_INDEX + fuel * 16 := by
  intro fuel
  induction fuel with
  | zero => intro plane drawn buf regs; exact Nat.le_add_right _ _
  | succ fuel ih =>
    intro plane drawn buf regs
    simp only [largePlanes]
    split
    · split
      · refine le_trans (ih _ _ _ _) ?_
        rw [Nat.succ_mul]
        exact Nat.add_le_add_left (Nat.le_add_right _ _) _
      · refine le_trans (ih _ _ _ _) ?_
        refine le_trans (Nat.add_le_add_right
          (largeLines_flag_le _ _ _ _ _ _ _ _ 16 0 _ _) (fuel * 16)) ?_
        rw [Nat.succ_mul]
        exact le_of_eq (by ring)
    · exact Nat.le_add_right _ _

/-- `display_sprite` adds at most `planes · height` to `VF`. -/
theorem display_sprite_flag (t : Chirp8) (coords : Nat × Nat) (height : Nat)
    (q : Bool) :
    (t.display_sprite coords height q).registers FLAG_REGISTER_INDEX ≤
      t.registers FLAG_REGISTER_INDEX + DISPLAY_PLANES * height := by
  refine le_trans (spritePlanes_flag_le _ _ _ _ _ _ _ _ _ _ _ _ 0 0 _ _) ?_
  split
  · exact Nat.le_refl _
  · simp only [DISPLAY_PLANES]; omega

/-- `display_large_sprite` adds at most `planes · 16` to `VF`. -/
theorem display_large_sprite_flag (t : Chirp8) (coords : Nat × Nat) (q : Bool) :
    (t.display_large_sprite coords q).registers FLAG_REGISTER_INDEX ≤
      t.registers FLAG_REGISTER_INDEX + DISPLAY_PLANES * 16 := by
  refine le_trans (largePlanes_flag_le _ _ _ _ _ _ _ _ _ 0 0 _ _) ?_
  split
  · exact Nat.le_refl _
  · simp only [DISPLAY_PLANES]; omega

/-- The final `VF` saturation step keeps any upper bound that is at
least 1. -/
theorem sat_registers_le (t : Chirp8) (cnd : Prop) [inst : Decidable cnd] (B : Nat)
    (h1 : 1 ≤ B) (ht : t.registers FLAG_REGISTER_INDEX ≤ B) :
    (if cnd then { t with registers := upd t.registers FLAG_REGISTER_INDEX 1 }
     else t).registers FLAG_REGISTER_INDEX ≤ B := by
  split
  · show upd t.registers FLAG_REGISTER_INDEX 1 FLAG_REGISTER_INDEX ≤ B
    rw [upd_same]; exact h1
  · exact ht

/-- After `handle_display_instruction`, `VF` is at most the total number
of line iterations, `planes · max 16 height` (the flag register is reset
to zero on entry). -/
theorem handle_display_flag_le (s : Chirp8) (coords : Nat × Nat) (height : Nat) :
    (s.handle_display_instruction coords height).registers FLAG_REGISTER_INDEX ≤
      DISPLAY_PLANES * max 16 height := by
  have h16 : (16 : Nat) ≤ max 16 height := le_max_left _ _
  have hh : height ≤ max 16 height := le_max_right _ _
  unfold Chirp8.handle_display_instruction
  simp only []
  refine sat_registers_le _ _ _ ?_ ?_
  · simp only [DISPLAY_PLANES]; omega
  · repeat' split
    all_goals
      first
      | (refine le_trans (display_large_sprite_flag _ _ _) ?_
         show upd s.registers FLAG_REGISTER_INDEX 0 FLAG_REGISTER_INDEX +
           DISPLAY_PLANES * 16 ≤ DISPLAY_PLANES * max 16 height
         rw [upd_same]
         simp only [DISPLAY_PLANES]
         omega)
      | (refine le_trans (display_sprite_flag _ _ _ _) ?_
         show upd s.registers FLAG_REGISTER_INDEX 0 FLAG_REGISTER_INDEX +
           DISPLAY_PLANES * height ≤ DISPLAY_PLANES * max 16 height
         rw [upd_same]
         simp only [DISPLAY_PLANES]
         omega)

/-- Without the collision-count quirk, `VF` after
`handle_display_instruction` is 0 or 1. -/
theorem handle_display_flag01 (s : Chirp8) (coords : Nat × Nat) (height : Nat)
    (hq : s.quirks.collision_count_hires = false) :
    (s.handle_display_instruction coords height).registers FLAG_REGISTER_INDEX = 0 ∨
    (s.handle_display_instruction coords height).registers FLAG_REGISTER_INDEX
      = 1 := by
  unfold Chirp8.handle_display_instruction
  simp only [ite_self]
  rw [hq]
  repeat' split
  all_goals
    first
    | (refine Or.inr ?_
       simp [upd_same]
       done)
    | (rename_i h
       exact Or.inl (Classical.byContradiction fun hne => h ⟨by simp, hne⟩))

/-- `handle_display_instruction` only changes the display buffer, the
registers and the `display_changed` flag. -/
theorem handle_display_fields (s : Chirp8) (coords : Nat × Nat) (height : Nat) :
    (s.handle_display_instruction coords height).ram = s.ram ∧
    (s.handle_display_instruction coords height).index = s.index ∧
    (s.handle_display_instruction coords height).plane_selection =
      s.plane_selection ∧
    (s.handle_display_instruction coords height).quirks = s.quirks ∧
    (s.handle_display_instruction coords height).mode = s.mode ∧
    (s.handle_display_instruction coords height).high_resolution =
      s.high_resolution := by
  unfold Chirp8.handle_display_instruction
  simp only []
  refine ⟨?_, ?_, ?_, ?_, ?_, ?_⟩ <;> (repeat' split) <;> rfl


/-- The complete XOR footprint of one `handle_display_instruction` call on
the frame buffer, as a function of the fields the call reads (mode,
quirks, resolution, plane selector, RAM, index) — valid whenever the draw
takes a pure-XOR path: high resolution, or the 16×16 XO-Chip path. -/
def drawXor (mode : Chirp8Mode) (qu : QuirkFlags) (hires : Bool) (sel : Nat)
    (ram : Nat → Nat) (index : Nat) (coords : Nat × Nat) (height : Nat)
    (r c : Nat) : Nat :=
  if (if mode ≠ Chirp8Mode.xoChip
      then (mode ≠ Chirp8Mode.cosmacChip8 ∧ hires = true) ∧ height = 0
      else height = 0) then
    largePlanesXor
      (if hires then ! qu.clip_sprites_hires else ! qu.clip_sprites_lores)
      qu.collision_count_hires
      (if qu.use_several_planes then DISPLAY_PLANES else 1) sel ram index
      coords.1 coords.2 0 0
      (if qu.use_several_planes then DISPLAY_PLANES else 1) r c
  else
    planesXor (! qu.clip_sprites_hires) qu.collision_count_hires
      (if qu.use_several_planes then DISPLAY_PLANES else 1) sel ram index height
      (coords.1 % DISPLAY_WIDTH) (coords.2 % DISPLAY_HEIGHT) 0 0
      (if qu.use_several_planes then DISPLAY_PLANES else 1) r c

/-- On a pure-XOR path (high resolution, or the 16×16 XO-Chip draw),
`handle_display_instruction` XORs the buffer-independent footprint
`drawXor` into the frame buffer. -/
theorem handle_display_xor (s : Chirp8) (coords : Nat × Nat) (height : Nat)
    (h : s.high_resolution = true ∨ (s.mode = Chirp8Mode.xoChip ∧ height = 0))
    (r c : Nat) :
    (s.handle_display_instruction coords height).display_buffer r c =
      s.display_buffer r c ^^^
        drawXor s.mode s.quirks s.high_resolution s.plane_selection s.ram s.index
          coords height r c := by
  have hsat : ∀ (t : Chirp8) (cnd : Prop) (inst : Decidable cnd),
      (if cnd then { t with registers := upd t.registers FLAG_REGISTER_INDEX 1 }
       else t).display_buffer = t.display_buffer := by
    intro t cnd inst
    split <;> rfl
  unfold Chirp8.handle_display_instruction drawXor
  simp only [ite_self, decide_bool_eq_true]
  rw [hsat]
  split <;> split
  · rw [display_large_sprite_xor]
  · rcases h with hr | hxo
    · rw [display_sprite_xor]
      all_goals exact hr
    · exact absurd hxo.1 (by assumption)
  · rw [display_large_sprite_xor]
  · rcases h with hr | hxo
    · rw [display_sprite_xor]
      all_goals exact hr
    · exact absurd hxo.2 (by assumption)


/-- A low-resolution Super-Chip state about to execute `D011` twice
(`ram[0x200..0x203] = D0 11 D0 11`), drawing the one-byte sprite `0x80`
at `I = 0x300` at coordinates `(V0, V1) = (0, 0)`; the frame-buffer cell
`(0, 1)` holds `0xFF` beforehand.  No display-wait quirk is active in
this mode, so neither step idles. -/
def stateC7 : Chirp8 :=
  { Chirp8.mk_new Chirp8Mode.superChipModern with
      ram := fun i =>
        if i = 0x200 then 0xD0 else if i = 0x201 then 0x11 else
        if i = 0x202 then 0xD0 else if i = 0x203 then 0x11 else
        if i = 0x300 then 0x80 else 0,
      index := 0x300,
      display_buffer := fun r c => if r = 0 ∧ c = 1 then 0xFF else 0 }

/-- **C7** (counterexample): in low resolution the 8×N draw path writes
whole 2×2 pixel blocks, copying the top-left pixel of each block over its
three neighbours, so drawing the same sprite twice does not restore the
frame buffer even on fully on-screen rows: cell `(0, 1)` held `0xFF` and
holds `0` after the two draws.  Both display-wait quirks are off, so no
display-wait idle applies to either step. -/
theorem claim_C7_counterexample :
    stateC7.quirks.display_wait_lores = false ∧
    stateC7.quirks.display_wait_hires = false ∧
    stateC7.high_resolution = false ∧
    stateC7.display_buffer 0 1 = 0xFF ∧
    (stateC7.step.bind Chirp8.step).map (fun t => t.display_buffer 0 1) =
      some 0 :=
  ⟨rfl, rfl, rfl, by decide, by decide⟩


/-- **C7** (amended): on every pure-XOR draw path — any draw in high
resolution, and the 16×16 (`DXY0`) draw on XO-Chip in either resolution —
executing the same draw instruction twice in succession (same
coordinates, same sprite height, with RAM, index, plane selector,
resolution, mode and quirks untouched in between, as
`handle_display_instruction` itself guarantees) restores every
frame-buffer cell, clipped rows included (clipped rows are simply never
touched).  Moreover `VF` is well defined after each of the two draws:
without the collision-count quirk it is 0 or 1, and in general it is
bounded by the total number of line iterations,
`DISPLAY_PLANES · max 16 height`.  (`handle_display_instruction` is the
draw handler that `step` invokes once no display-wait idle applies.  In
low resolution the 8×N path fails this property: see the
counterexample.) -/
theorem claim_C7_draw_twice_restores (s : Chirp8) (coords : Nat × Nat)
    (height : Nat)
    (h : s.high_resolution = true ∨ (s.mode = Chirp8Mode.xoChip ∧ height = 0)) :
    (∀ r c,
      ((s.handle_display_instruction coords height).handle_display_instruction
          coords height).display_buffer r c = s.display_buffer r c) ∧
    (s.quirks.collision_count_hires = false →
      ((s.handle_display_instruction coords height).registers
          FLAG_REGISTER_INDEX = 0 ∨
        (s.handle_display_instruction coords height).registers
          FLAG_REGISTER_INDEX = 1) ∧
      (((s.handle_display_instruction coords height).handle_display_instruction
            coords height).registers FLAG_REGISTER_INDEX = 0 ∨
        ((s.handle_display_instruction coords height).handle_display_instruction
            coords height).registers FLAG_REGISTER_INDEX = 1)) ∧
    (s.handle_display_instruction coords height).registers FLAG_REGISTER_INDEX ≤
      DISPLAY_PLANES * max 16 height ∧
    ((s.handle_display_instruction coords height).handle_display_instruction
        coords height).registers FLAG_REGISTER_INDEX ≤
      DISPLAY_PLANES * max 16 height := by
  obtain ⟨hram, hidx, hsel, hqu, hmode, hhr⟩ := handle_display_fields s coords height
  have hside : (s.handle_display_instruction coords height).high_resolution =
      true ∨
      ((s.handle_display_instruction coords height).mode = Chirp8Mode.xoChip ∧
        height = 0) := by
    rw [hhr, hmode]; exact h
  refine ⟨?_, ?_, ?_, ?_⟩
  · intro r c
    rw [handle_display_xor _ coords height hside r c,
      handle_display_xor s coords height h r c, hram, hidx, hsel, hqu, hmode, hhr,
      Nat.xor_assoc, Nat.xor_self, Nat.xor_zero]
  · intro hq
    refine ⟨handle_display_flag01 s coords height hq,
      handle_display_flag01 _ coords height ?_⟩
    rw [hqu]; exact hq
  · exact handle_display_flag_le s coords height
  · exact handle_display_flag_le _ coords height

/-- Witness for the amended C7 theorem at a concrete XO-Chip input. -/
theorem claim_C7_draw_twice_restores_witness :
    ((Chirp8.mk_new Chirp8Mode.xoChip).high_resolution = true ∨
      ((Chirp8.mk_new Chirp8Mode.xoChip).mode = Chirp8Mode.xoChip ∧
        (0 : Nat) = 0)) ∧
    (((Chirp8.mk_new Chirp8Mode.xoChip).handle_display_instruction (3, 5)
          0).handle_display_instruction (3, 5) 0).display_buffer 2 4 =
      (Chirp8.mk_new Chirp8Mode.xoChip).display_buffer 2 4 :=
  ⟨Or.inr ⟨rfl, rfl⟩,
    (claim_C7_draw_twice_restores (Chirp8.mk_new Chirp8Mode.xoChip) (3, 5) 0
      (Or.inr ⟨rfl, rfl⟩)).1 2 4⟩

end Chirp8Emb
